import Mathlib

/-!
Verification of the CTRAD pre-transaction risk-scoring engine.

This file gives a shallow embedding, in Lean 4, of the scoring core of the
CTRAD repository (src/scoring/scorer.py, src/scoring/sequence.py,
src/graph/graph_reputation.py, src/contract/contract_risk.py,
src/services/web3_api.py) and proves or refutes the specification claims
about it.

Modelling conventions:
* Python floats are modelled as exact rationals (`ℚ`); the one place the
  code takes a square root (the sequence model) is modelled over `ℝ`.
* Python `round(x, n)` (round-half-to-even) is modelled exactly by
  `pyRoundInt`; `int(x)` (truncation toward zero) by `pyTrunc`.
* Strings are Lean `String`s; in the graph model addresses are modelled as
  lists of characters so that prefix slicing (`addr[:6]` etc.) is
  `List.take`.
* Provider calls (`src/services/web3_api.py`) never raise: they return
  either data or an error dictionary.  A frozen snapshot of their responses
  is an explicit `Snapshot` argument, and the current wall-clock time (the
  code calls `datetime.now` / `datetime.utcnow`) is an explicit `now`
  argument (seconds since the epoch, UTC).
-/

/-- Python `round` to an integer: round half to even (banker's rounding),
on exact rationals. -/
def pyRoundInt (q : ℚ) : ℤ :=
  if q - ⌊q⌋ < 1/2 then ⌊q⌋
  else if 1/2 < q - ⌊q⌋ then ⌊q⌋ + 1
  else if ⌊q⌋ % 2 = 0 then ⌊q⌋ else ⌊q⌋ + 1

/-- Python `int(...)` on a float: truncation toward zero. -/
def pyTrunc (q : ℚ) : ℤ :=
  if 0 ≤ q then ⌊q⌋ else ⌈q⌉

/-- Python `round(x, 2)`. -/
def pyRound2 (q : ℚ) : ℚ := (pyRoundInt (q * 100) : ℚ) / 100

/-- Python `round(x, 3)`. -/
def pyRound3 (q : ℚ) : ℚ := (pyRoundInt (q * 1000) : ℚ) / 1000

theorem floor_le_pyRoundInt (q : ℚ) : ⌊q⌋ ≤ pyRoundInt q := by
  unfold pyRoundInt
  split_ifs <;> omega

theorem pyRoundInt_le_floor_add_one (q : ℚ) : pyRoundInt q ≤ ⌊q⌋ + 1 := by
  unfold pyRoundInt
  split_ifs <;> omega

theorem pyRoundInt_mono {a b : ℚ} (h : a ≤ b) : pyRoundInt a ≤ pyRoundInt b := by
  rcases lt_or_eq_of_le (Int.floor_mono h) with hlt | heq
  · calc pyRoundInt a ≤ ⌊a⌋ + 1 := pyRoundInt_le_floor_add_one a
      _ ≤ ⌊b⌋ := by omega
      _ ≤ pyRoundInt b := floor_le_pyRoundInt b
  · unfold pyRoundInt
    rw [← heq]
    have hr : a - (⌊a⌋ : ℚ) ≤ b - (⌊a⌋ : ℚ) := by linarith
    split_ifs <;> first
      | omega
      | (exfalso; linarith)

theorem pyRoundInt_intCast (n : ℤ) : pyRoundInt (n : ℚ) = n := by
  unfold pyRoundInt
  rw [Int.floor_intCast]
  simp

theorem pyRound3_nonneg {q : ℚ} (h : 0 ≤ q) : 0 ≤ pyRound3 q := by
  unfold pyRound3
  have h0 : pyRoundInt (0 : ℚ) ≤ pyRoundInt (q * 1000) := by
    apply pyRoundInt_mono
    positivity
  have : pyRoundInt (0 : ℚ) = 0 := by
    have := pyRoundInt_intCast 0
    simpa using this
  rw [this] at h0
  positivity

theorem pyRound3_le_one {q : ℚ} (h : q ≤ 1) : pyRound3 q ≤ 1 := by
  unfold pyRound3
  have h0 : pyRoundInt (q * 1000) ≤ pyRoundInt ((1000 : ℤ) : ℚ) := by
    apply pyRoundInt_mono
    push_cast
    linarith
  rw [pyRoundInt_intCast] at h0
  rw [div_le_one (by norm_num)]
  exact_mod_cast h0

theorem pyRound3_mono {a b : ℚ} (h : a ≤ b) : pyRound3 a ≤ pyRound3 b := by
  unfold pyRound3
  have := pyRoundInt_mono (a := a * 1000) (b := b * 1000) (by linarith)
  have hc : ((pyRoundInt (a * 1000) : ℤ) : ℚ) ≤ ((pyRoundInt (b * 1000) : ℤ) : ℚ) := by
    exact_mod_cast this
  linarith

/-- Evaluation helper: `pyRoundInt q = n` whenever `q` lies in the
half-open interval where it rounds down to `n` (no tie). -/
theorem pyRoundInt_eq_down (n : ℤ) {q : ℚ} (h1 : (n : ℚ) ≤ q)
    (h2 : q < (n : ℚ) + 1/2) : pyRoundInt q = n := by
  have hf : ⌊q⌋ = n := Int.floor_eq_iff.mpr ⟨h1, by linarith⟩
  unfold pyRoundInt
  rw [hf]
  rw [if_pos (by linarith)]

/-- Evaluation helper: `pyRoundInt q = n + 1` whenever `q` lies strictly
above the tie point below `n + 1`. -/
theorem pyRoundInt_eq_up (n : ℤ) {q : ℚ} (h1 : (n : ℚ) + 1/2 < q)
    (h2 : q < (n : ℚ) + 1) : pyRoundInt q = n + 1 := by
  have hf : ⌊q⌋ = n := Int.floor_eq_iff.mpr ⟨by linarith, by linarith⟩
  unfold pyRoundInt
  rw [hf]
  rw [if_neg (by linarith), if_pos (by linarith)]

/-- Evaluation helper for `pyRound3` away from ties. -/
theorem pyRound3_eq (n : ℤ) {q : ℚ} (h1 : (n : ℚ) ≤ q * 1000)
    (h2 : q * 1000 < (n : ℚ) + 1/2) : pyRound3 q = (n : ℚ) / 1000 := by
  unfold pyRound3
  rw [pyRoundInt_eq_down n h1 h2]

/-- Evaluation helper for `pyRound2` away from ties. -/
theorem pyRound2_eq (n : ℤ) {q : ℚ} (h1 : (n : ℚ) ≤ q * 100)
    (h2 : q * 100 < (n : ℚ) + 1/2) : pyRound2 q = (n : ℚ) / 100 := by
  unfold pyRound2
  rw [pyRoundInt_eq_down n h1 h2]

/-- Evaluation helper for `pyTrunc` on nonnegative arguments. -/
theorem pyTrunc_eq (n : ℤ) {q : ℚ} (h0 : 0 ≤ q) (h1 : (n : ℚ) ≤ q)
    (h2 : q < (n : ℚ) + 1) : pyTrunc q = n := by
  unfold pyTrunc
  rw [if_pos h0]
  exact Int.floor_eq_iff.mpr ⟨h1, by linarith⟩

/-! ## Graph reputation model (src/graph/graph_reputation.py)

Addresses are modelled as lists of characters, so Python slicing
`addr[:6]` is `List.take 6`.  `GraphReputation.scam_clusters` is the
dictionary literal from the source; only `base_risk` and the member
address set matter to `compute_distance` (the `label` field is unused),
and `max` over a Python set iteration is order-independent, so clusters
are modelled as a list of (base_risk, members) pairs. -/

namespace GraphReputation

/-- The demo clusters hard-coded in `GraphReputation.__init__`. -/
def scam_clusters : List (ℚ × List (List Char)) :=
  [ (0.95, [("0x111aaa".data), ("0x111bbb".data), ("0x111ccc".data)])
  , (0.75, [("0x222aaa".data), ("0x222bbb".data)])
  , (0.90, [("0x333aaa".data), ("0x333bbb".data), ("0x333ccc".data)]) ]

/-- One iteration of the inner loop of `compute_distance`: the four
independent (non-else-chained) prefix checks of the source, updating the
running maximum. -/
def pairStep (addr : List Char) (base : ℚ) (scamAddr : List Char) (r : ℚ) : ℚ :=
  let s := scamAddr.map Char.toLower
  let r1 := if addr = s then max r base else r
  let r2 := if addr.take 6 = s.take 6 then max r1 (base * 0.7) else r1
  let r3 := if addr.take 4 = s.take 4 then max r2 (base * 0.45) else r2
  if addr.take 2 = s.take 2 then max r3 (base * 0.20) else r3

/-- `GraphReputation.compute_distance`, translated from the source. -/
def compute_distance (addr : List Char) : ℚ :=
  let a := addr.map Char.toLower
  let maxRisk :=
    scam_clusters.foldl
      (fun r c => c.2.foldl (fun r s => pairStep a c.1 s r) r) 0
  pyRound3 maxRisk

/-- `GraphReputation.score` just forwards to `compute_distance`. -/
def score (addr : List Char) : ℚ := compute_distance addr

end GraphReputation

/-! Claim-side definitions for C6, written from the words of the claim:
an else-chain on the hex characters AFTER the "0x" prefix. -/

/-- Per-pair contribution as the claim states it: exact match 1.0x, else
first 6 hex characters after the 0x prefix 0.70x, else first 4 0.45x,
else first 2 0.20x, else 0. -/
def claimPairRisk (addr : List Char) (base : ℚ) (scamAddr : List Char) : ℚ :=
  let s := scamAddr.map Char.toLower
  if addr = s then base
  else if (addr.drop 2).take 6 = (s.drop 2).take 6 then base * 0.7
  else if (addr.drop 2).take 4 = (s.drop 2).take 4 then base * 0.45
  else if (addr.drop 2).take 2 = (s.drop 2).take 2 then base * 0.20
  else 0

/-- The graph score as claim C6 states it. -/
def claimGraphScore (addr : List Char) : ℚ :=
  let a := addr.map Char.toLower
  pyRound3 <| GraphReputation.scam_clusters.foldl
    (fun r c => c.2.foldl (fun r s => max r (claimPairRisk a c.1 s)) r) 0

/-- Per-pair contribution under the amended claim: the same else-chain,
but on the raw leading characters of the address strings, INCLUDING the
"0x" prefix (so the 6/4/2-character comparisons look at only 4/2/0 hex
digits). -/
def amendedPairRisk (addr : List Char) (base : ℚ) (scamAddr : List Char) : ℚ :=
  let s := scamAddr.map Char.toLower
  if addr = s then base
  else if addr.take 6 = s.take 6 then base * 0.7
  else if addr.take 4 = s.take 4 then base * 0.45
  else if addr.take 2 = s.take 2 then base * 0.20
  else 0

/-- The graph score as amended claim C6 states it. -/
def amendedGraphScore (addr : List Char) : ℚ :=
  let a := addr.map Char.toLower
  pyRound3 <| GraphReputation.scam_clusters.foldl
    (fun r c => c.2.foldl (fun r s => max r (amendedPairRisk a c.1 s)) r) 0

theorem pairStep_eq_max_amended (a s : List Char) (base r : ℚ)
    (hb : 0 ≤ base) (hr : 0 ≤ r) :
    GraphReputation.pairStep a base s r = max r (amendedPairRisk a base s) := by
  unfold GraphReputation.pairStep amendedPairRisk
  set t := s.map Char.toLower with ht
  by_cases h1 : a = t
  · have h6 : a.take 6 = t.take 6 := by rw [h1]
    have h4 : a.take 4 = t.take 4 := by rw [h1]
    have h2 : a.take 2 = t.take 2 := by rw [h1]
    simp only [h1, h6, h4, h2, if_pos rfl, if_true]
    have e1 : max (max r base) (base * 0.7) = max r base := by
      rw [max_eq_left]
      exact le_max_of_le_right (by linarith)
    have e2 : max (max r base) (base * 0.45) = max r base := by
      rw [max_eq_left]
      exact le_max_of_le_right (by linarith)
    have e3 : max (max r base) (base * 0.20) = max r base := by
      rw [max_eq_left]
      exact le_max_of_le_right (by linarith)
    rw [e1, e2, e3]
  · by_cases h6 : a.take 6 = t.take 6
    · have h4 : a.take 4 = t.take 4 := by
        have := congrArg (List.take 4) h6
        simpa [List.take_take] using this
      have h2 : a.take 2 = t.take 2 := by
        have := congrArg (List.take 2) h6
        simpa [List.take_take] using this
      simp only [if_neg h1, h6, h4, h2, if_true]
      have e2 : max (max r (base * 0.7)) (base * 0.45) = max r (base * 0.7) := by
        rw [max_eq_left]
        exact le_max_of_le_right (by linarith)
      have e3 : max (max r (base * 0.7)) (base * 0.20) = max r (base * 0.7) := by
        rw [max_eq_left]
        exact le_max_of_le_right (by linarith)
      rw [e2, e3]
    · by_cases h4 : a.take 4 = t.take 4
      · have h2 : a.take 2 = t.take 2 := by
          have := congrArg (List.take 2) h4
          simpa [List.take_take] using this
        simp only [if_neg h1, if_neg h6, h4, h2, if_true]
        rw [max_eq_left]
        exact le_max_of_le_right (by linarith)
      · by_cases h2 : a.take 2 = t.take 2
        · simp only [if_neg h1, if_neg h6, if_neg h4, h2, if_true]
        · simp only [if_neg h1, if_neg h6, if_neg h4, if_neg h2]
          exact (max_eq_left hr).symm

theorem foldl_max_nonneg (f : List Char → ℚ) (ms : List (List Char)) (r : ℚ)
    (hr : 0 ≤ r) : 0 ≤ ms.foldl (fun r s => max r (f s)) r := by
  induction ms generalizing r with
  | nil => exact hr
  | cons m ms ih => exact ih _ (le_trans hr (le_max_left _ _))

theorem innerFold_eq (a : List Char) (base : ℚ) (hb : 0 ≤ base)
    (ms : List (List Char)) (r : ℚ) (hr : 0 ≤ r) :
    ms.foldl (fun r s => GraphReputation.pairStep a base s r) r
      = ms.foldl (fun r s => max r (amendedPairRisk a base s)) r := by
  induction ms generalizing r with
  | nil => rfl
  | cons m ms ih =>
      simp only [List.foldl_cons]
      rw [pairStep_eq_max_amended a m base r hb hr]
      exact ih _ (le_trans hr (le_max_left _ _))

theorem graph_fold_eq (a : List Char) (cs : List (ℚ × List (List Char)))
    (r : ℚ) (hr : 0 ≤ r) (hb : ∀ c ∈ cs, 0 ≤ c.1) :
    cs.foldl (fun r c => c.2.foldl (fun r s => GraphReputation.pairStep a c.1 s r) r) r
      = cs.foldl (fun r c => c.2.foldl (fun r s => max r (amendedPairRisk a c.1 s)) r) r := by
  induction cs generalizing r with
  | nil => rfl
  | cons c cs ih =>
      simp only [List.foldl_cons]
      rw [innerFold_eq a c.1 (hb c (List.mem_cons_self c cs)) c.2 r hr]
      exact ih _ (foldl_max_nonneg _ c.2 r hr)
        (fun d hd => hb d (List.mem_cons_of_mem c hd))

/-- C6 counterexample: the claim computes prefix similarity on the hex
characters AFTER the "0x" prefix, but `compute_distance` slices the raw
string, so `addr[:2]` is just "0x" and matches every cluster member.  For
the query address "0x999999" the code returns 0.19 (= 0.20 x 0.95 via the
phishing cluster), while the formula of the claim returns 0. -/
theorem C6_counterexample :
    GraphReputation.compute_distance ("0x999999".data)
        ≠ claimGraphScore ("0x999999".data) ∧
    GraphReputation.compute_distance ("0x999999".data) = 19/100 ∧
    claimGraphScore ("0x999999".data) = 0 := by
  have h1 : GraphReputation.compute_distance ("0x999999".data) = 19/100 := by
    simp +decide only [GraphReputation.compute_distance, GraphReputation.scam_clusters,
      GraphReputation.pairStep, List.foldl_cons, List.foldl_nil]
    norm_num
    rw [pyRound3_eq 190 (by norm_num) (by norm_num)]
    norm_num
  have h2 : claimGraphScore ("0x999999".data) = 0 := by
    simp +decide only [claimGraphScore, GraphReputation.scam_clusters, claimPairRisk,
      List.foldl_cons, List.foldl_nil]
    norm_num
    rw [pyRound3_eq 0 (by norm_num) (by norm_num)]
    norm_num
  refine ⟨?_, h1, h2⟩
  rw [h1, h2]
  norm_num

/-- C6 amended: for every query address, the graph reputation score equals
the maximum over all clusters and member addresses of an else-chain of
prefix checks on the RAW address strings (including the "0x" prefix):
1.0 x base_risk on exact match, else 0.70 x base_risk if the first 6
characters match, else 0.45 x base_risk if the first 4 match, else
0.20 x base_risk if the first 2 match, else 0; the global maximum is
rounded to 3 decimals. -/
theorem C6_amended (addr : List Char) :
    GraphReputation.compute_distance addr = amendedGraphScore addr := by
  unfold GraphReputation.compute_distance amendedGraphScore
  refine congrArg pyRound3 (graph_fold_eq (addr.map Char.toLower)
    GraphReputation.scam_clusters 0 le_rfl ?_)
  intro c hc
  simp only [GraphReputation.scam_clusters, List.mem_cons, List.not_mem_nil,
    or_false] at hc
  rcases hc with h | h | h <;> subst h <;> norm_num

/-! ## Contract risk engine (src/contract/contract_risk.py) -/

/-- Python `str.lower()`, modelled characterwise. -/
def pyLower (s : String) : String := ⟨s.data.map Char.toLower⟩

/-- Python `str.upper()`, modelled characterwise. -/
def pyUpper (s : String) : String := ⟨s.data.map Char.toUpper⟩

namespace ContractRiskEngine

/-- The demo blacklist hard-coded in `ContractRiskEngine.__init__`. -/
def blacklisted_contracts : List String :=
  ["0xdeadbeef", "0xbadhoneypot", "0xscamtoken"]

/-- The set literal of popular symbols tested by the engine. -/
def major_symbols : List String := ["USDT", "ETH", "BTC"]

/-- The fields of the transaction-context dictionary that
`ContractRiskEngine.score` reads, with the Python `dict.get` defaults
(0 for the taxes, the empty string for symbol and owner). -/
structure ContractTxCtx where
  token_symbol : String
  sell_tax : ℚ
  buy_tax : ℚ
  contract_owner : String

/-- `ContractRiskEngine.score`, translated from the source.  Python
truthiness of the numeric taxes (`if sell_tax and sell_tax > 20`) is the
conjunction with nonzeroness. -/
def score (contract_addr : String) (tx : ContractTxCtx) : ℚ × List String :=
  if contract_addr = "" then (0.0, ["No contract address provided"])
  else
    let ca := pyLower contract_addr
    let s0 : ℚ := 0.0
    let rs0 : List String := []
    let p1 := if blacklisted_contracts.contains ca then
        (s0 + 0.9, rs0 ++ ["Contract is blacklisted"]) else (s0, rs0)
    let symbol := pyUpper tx.token_symbol
    let p2 := if major_symbols.contains symbol then
        (p1.1 + 0.4, p1.2 ++ ["Popular token symbol but unknown contract"]) else p1
    let p3 := if tx.sell_tax ≠ 0 ∧ tx.sell_tax > 20 then
        (p2.1 + 0.6, p2.2 ++ ["Very high sell tax (possible honeypot)"]) else p2
    let p4 := if tx.buy_tax ≠ 0 ∧ tx.buy_tax > 15 then
        (p3.1 + 0.4, p3.2 ++ ["High buy tax"]) else p3
    let p5 := if tx.contract_owner ≠ "" ∧ tx.contract_owner ≠ "renounced" then
        (p4.1 + 0.3, p4.2 ++ ["Contract ownership not renounced"]) else p4
    (min p5.1 1.0, p5.2)

end ContractRiskEngine

/-- Claim-side definition for C7 (written from the words of the claim):
the contract risk is the sum, saturated at 1.0, of 0.9 for blacklist
membership, 0.4 for a recognized/major token symbol (the engine keeps no
registry of recognized contract addresses, so every contract address it
is given is "unrecognized"), 0.6 for sell-tax above the threshold, 0.4
for buy-tax above the lower threshold, and 0.3 for non-renounced
ownership. -/
def claimContractRisk (contract_addr : String)
    (tx : ContractRiskEngine.ContractTxCtx) : ℚ :=
  min 1.0
    ((if ContractRiskEngine.blacklisted_contracts.contains (pyLower contract_addr)
        then (0.9 : ℚ) else 0)
    + (if ContractRiskEngine.major_symbols.contains (pyUpper tx.token_symbol)
        then (0.4 : ℚ) else 0)
    + (if tx.sell_tax > 20 then (0.6 : ℚ) else 0)
    + (if tx.buy_tax > 15 then (0.4 : ℚ) else 0)
    + (if tx.contract_owner ≠ "" ∧ tx.contract_owner ≠ "renounced"
        then (0.3 : ℚ) else 0))

/-- Claim-side definition for C7: one reason string is appended per
contributing condition. -/
def claimContractReasons (contract_addr : String)
    (tx : ContractRiskEngine.ContractTxCtx) : List String :=
  (if ContractRiskEngine.blacklisted_contracts.contains (pyLower contract_addr)
      then ["Contract is blacklisted"] else [])
  ++ (if ContractRiskEngine.major_symbols.contains (pyUpper tx.token_symbol)
      then ["Popular token symbol but unknown contract"] else [])
  ++ (if tx.sell_tax > 20 then ["Very high sell tax (possible honeypot)"] else [])
  ++ (if tx.buy_tax > 15 then ["High buy tax"] else [])
  ++ (if tx.contract_owner ≠ "" ∧ tx.contract_owner ≠ "renounced"
      then ["Contract ownership not renounced"] else [])

theorem truthy_gt_twenty (s : ℚ) : (s ≠ 0 ∧ s > 20) ↔ s > 20 := by
  constructor
  · exact And.right
  · intro h
    exact ⟨ne_of_gt (lt_trans (by norm_num) h), h⟩

theorem truthy_gt_fifteen (s : ℚ) : (s ≠ 0 ∧ s > 15) ↔ s > 15 := by
  constructor
  · exact And.right
  · intro h
    exact ⟨ne_of_gt (lt_trans (by norm_num) h), h⟩

/-- C7: for every contract address and transaction context, the contract
risk model returns 0 risk with an explanatory reason when the contract
address is empty (the scorer passes the empty string when the field is
absent); otherwise it returns the saturated sum of the five signals with
one reason string per contributing condition. -/
theorem C7_contract_signals (contract_addr : String)
    (tx : ContractRiskEngine.ContractTxCtx) :
    ContractRiskEngine.score contract_addr tx =
      if contract_addr = "" then (0, ["No contract address provided"])
      else (claimContractRisk contract_addr tx,
            claimContractReasons contract_addr tx) := by
  unfold ContractRiskEngine.score claimContractRisk claimContractReasons
  by_cases h : contract_addr = ""
  · simp [h]
    norm_num
  · simp only [if_neg h, truthy_gt_twenty, truthy_gt_fifteen]
    split_ifs <;> simp <;> norm_num [min_comm]

/-! ## Sequence anomaly model (src/scoring/sequence.py)

Amounts are modelled over `ℝ` because the source takes a square root
(`std = variance ** 0.5`; the variance is a mean of squares, hence
nonnegative, so `** 0.5` is `Real.sqrt`). -/

namespace SequenceModel

open Classical in
/-- `SequenceModel.predict`, translated from the source.  Python
`not history_amounts` is the emptiness test. -/
noncomputable def predict (history_amounts : List ℝ) (current_amount : ℝ) : ℝ :=
  if history_amounts = [] ∨ history_amounts.length < 3 then 0.10
  else
    let avg := history_amounts.sum / history_amounts.length
    let diffs := history_amounts.map (fun x => (x - avg) ^ 2)
    let std := Real.sqrt (diffs.sum / history_amounts.length)
    let std2 := if std < 1e-6 then 1e-6 else std
    let z := |current_amount - avg| / std2
    min (z / 5) 1.0

end SequenceModel

/-- Claim-side definition for C5: the arithmetic mean of the history. -/
noncomputable def specMean (h : List ℝ) : ℝ := h.sum / h.length

/-- Claim-side definition for C5: the population standard deviation. -/
noncomputable def specPopStd (h : List ℝ) : ℝ :=
  Real.sqrt ((h.map (fun x => (x - specMean h) ^ 2)).sum / h.length)

/-- Claim-side definition for C5: the standard deviation floored at the
small epsilon 1e-6. -/
noncomputable def specFlooredStd (h : List ℝ) : ℝ := max (specPopStd h) 1e-6

/-- Claim-side definition for C5: the z-score of the current amount. -/
noncomputable def specZ (h : List ℝ) (c : ℝ) : ℝ := |c - specMean h| / specFlooredStd h

theorem if_lt_eq_max (a b : ℝ) : (if a < b then b else a) = max a b := by
  rcases lt_or_le a b with h | h
  · rw [if_pos h, max_eq_right h.le]
  · rw [if_neg (not_lt.mpr h), max_eq_left h]

/-- C5: with fewer than 3 history points the sequence model returns
exactly 0.10 regardless of the current amount; otherwise it returns
min(z / 5, 1) where z is the absolute deviation of the current amount
from the history mean in units of the epsilon-floored population
standard deviation. -/
theorem C5_sequence (h : List ℝ) (c : ℝ) :
    SequenceModel.predict h c =
      if h.length < 3 then 0.10 else min (specZ h c / 5) 1 := by
  unfold SequenceModel.predict
  by_cases hl : h.length < 3
  · rw [if_pos (Or.inr hl), if_pos hl]
  · have hcond : ¬ (h = [] ∨ h.length < 3) := by
      rintro (he | hlen)
      · exact hl (by simp [he])
      · exact hl hlen
    rw [if_neg hcond, if_neg hl]
    simp only [if_lt_eq_max]
    unfold specZ specFlooredStd specPopStd specMean
    norm_num

/-! ## Provider layer (src/services/web3_api.py)

The scorer consumes the provider through `get_address_transactions`,
`get_token_metadata`, `get_token_price` and `get_contract_metadata`.
`_moralis_get` never raises: any transport/parse failure or missing API
key yields an error dictionary.  Claims C1-C4 and C8-C10 quantify over a
frozen snapshot of these responses, so the provider is modelled as an
explicit snapshot argument. -/

/-- The outcome of `get_address_transactions` as the scorer inspects it:
an error dictionary (`error` key set - any provider failure, missing API
key, or an empty address), some other non-list value, or a list of
transactions of which the scorer only reads the parsed
`block_timestamp`/`timestamp` instant (`none` when the field is absent
or falsy; entries whose timestamp string would fail to parse are outside
this model). -/
inductive TxsResp where
  | errDict : TxsResp
  | otherDict : TxsResp
  | txs : List (Option ℚ) → TxsResp

/-- A frozen snapshot of the provider responses seen by one scoring
call: the three `get_address_transactions` calls (recipient limit 1,
sender limit 20, sender limit 50), the Python truthiness of the
`get_token_metadata` result, the `get_token_price` result, and whether
the `get_contract_metadata` result is a dictionary carrying
`verified`/`isVerified` equal to `True`. -/
structure Snapshot where
  toTxs1 : TxsResp
  fromTxs20 : TxsResp
  fromTxs50 : TxsResp
  tokenMetaTruthy : Bool
  tokenPrice : ℚ
  contractVerified : Bool

/-- `get_address_transactions` returns an error dictionary for an empty
address before any network access; otherwise, under a frozen snapshot,
it returns the snapshot response for the recipient/limit-1 call. -/
def getToTxs1 (snap : Snapshot) (addr : String) : TxsResp :=
  if addr = "" then .errDict else snap.toTxs1

/-- Same as `getToTxs1` for the sender/limit-20 call. -/
def getFromTxs20 (snap : Snapshot) (addr : String) : TxsResp :=
  if addr = "" then .errDict else snap.fromTxs20

/-- Same as `getToTxs1` for the sender/limit-50 call. -/
def getFromTxs50 (snap : Snapshot) (addr : String) : TxsResp :=
  if addr = "" then .errDict else snap.fromTxs50

/-! ## Scorer (src/scoring/scorer.py) -/

/-- The transaction dictionary as read by `score_pre_transaction`:
absent `from_addr`/`to_addr`/`token_contract` coerce to the empty
string, an absent `amount_usd` coerces to 0, and `timestamp` is the
parsed UTC instant in seconds since the epoch (`none` when absent or
falsy, in which case the code falls back to `datetime.utcnow()`). -/
structure Transaction where
  chain : String
  from_addr : String
  to_addr : String
  token_contract : String
  amount_usd : ℚ
  timestamp : Option ℚ

/-- The optional precomputed features dictionary: `to_age_days` is
tested with `is not None`, while `sender_avg_tx_usd` is tested for
Python truthiness (so a stored 0 behaves like an absent value and is
modelled by the nonzeroness test in `step10`). -/
structure Features where
  to_age_days : Option ℚ
  sender_avg_tx_usd : Option ℚ

/-- Hour-of-day (UTC) of an epoch instant, as `datetime.hour`. -/
def hourOf (t : ℚ) : ℤ := ⌊t / 3600⌋ % 24

/-- `timedelta.days` between two epoch instants: floor division of the
signed difference by 86400 seconds. -/
def daysBetween (now ts : ℚ) : ℤ := ⌊(now - ts) / 86400⌋

namespace Scorer

/-- The `_RULE_POINTS` table of the source. -/
def rulePoints : String → ℚ
  | "blacklist" => 30
  | "high_amount" => 25
  | "fresh_wallet" => 20
  | "risky_token" => 20
  | "contract_unverified" => 25
  | "rapid_spam" => 15
  | "large_deviation" => 20
  | "dusting" => 10
  | "self_transfer" => 10
  | "odd_hour" => 5
  | _ => 0

/-- `sum(_RULE_POINTS.values())`, written out in table order. -/
def maxPoints : ℚ := 30 + 25 + 20 + 20 + 25 + 15 + 20 + 10 + 10 + 5

/-- The module-level `BLACKLIST` set, lowercased in `Scorer.__init__`. -/
def blacklist : List String :=
  ["0xscamdead00000000000000000000000000000000",
   "0xphishdead000000000000000000000000000000"].map pyLower

/-- The module-level `RISKY_TOKENS` set, lowercased in `Scorer.__init__`. -/
def risky_tokens : List String :=
  ["0xdeadtoken000000000000000000000000000000000"].map pyLower

/-- `Scorer._is_blacklisted`: Python truthiness of the address and
membership of its lowercasing in the blacklist. -/
def _is_blacklisted (addr : String) : Bool :=
  addr != "" && blacklist.contains (pyLower addr)

/-- `_norm` from the source: clamp `v / max_points` into [0, 1]. -/
def _norm (v max_points : ℚ) : ℚ := max 0 (min 1 (v / max_points))

/-- The running state of one `score_pre_transaction` call: accumulated
points, fired reasons in order, and the five component scores. -/
structure ScoreState where
  points : ℚ
  reasons : List String
  rules : ℚ
  tabular : ℚ
  sequence : ℚ
  graph : ℚ
  contract : ℚ

/-- `points = 0.0`, `reasons = []`, and the initial `component_scores`
dictionary with every component at 0.0. -/
def initState : ScoreState := ⟨0, [], 0, 0, 0, 0, 0⟩

/-- Rule 1: blacklist check on either endpoint. -/
def step1 (from_addr to_addr : String) (st : ScoreState) : ScoreState :=
  if _is_blacklisted to_addr || _is_blacklisted from_addr then
    { st with points := st.points + rulePoints "blacklist",
              reasons := st.reasons ++ ["address_on_blacklist"],
              rules := max st.rules
                (_norm (rulePoints "blacklist") (rulePoints "blacklist")) }
  else st

/-- Rule 2: amount tiering, then the unconditional update of the
`tabular` component from the points accumulated so far. -/
def step2 (amount_usd : ℚ) (st : ScoreState) : ScoreState :=
  let st1 :=
    if amount_usd ≥ 100000 then
      { st with points := st.points + rulePoints "high_amount",
                reasons := st.reasons ++ ["very_high_amount"] }
    else if amount_usd ≥ 10000 then
      { st with points := st.points + rulePoints "high_amount" * 0.6,
                reasons := st.reasons ++ ["high_amount"] }
    else if amount_usd ≥ 1000 then
      { st with points := st.points + rulePoints "high_amount" * 0.2 }
    else st
  { st1 with tabular := max st1.tabular (_norm st1.points maxPoints) }

/-- The `fresh` flag of rule 3: on an error dictionary fall back to the
provided `to_age_days` feature; on a list, an empty list means a newly
observed address and otherwise the age of the first transaction is
compared against 30 days. -/
def freshCond (to_addr : String) (features : Features) (snap : Snapshot)
    (now : ℚ) : Bool :=
  match getToTxs1 snap to_addr with
  | .errDict =>
      match features.to_age_days with
      | some d => decide (d < 30)
      | none => false
  | .otherDict => false
  | .txs l =>
      match l with
      | [] => true
      | e :: _ =>
          match e with
          | some ts => decide (daysBetween now ts < 30)
          | none => false

/-- Rule 3: fresh recipient wallet. -/
def step3 (to_addr : String) (features : Features) (snap : Snapshot)
    (now : ℚ) (st : ScoreState) : ScoreState :=
  if freshCond to_addr features snap now then
    { st with points := st.points + rulePoints "fresh_wallet",
              reasons := st.reasons ++ ["recipient_fresh_wallet"],
              rules := max st.rules (_norm (rulePoints "fresh_wallet") maxPoints) }
  else st

/-- Rule 4: risky-token list, else the best-effort token metadata/price
suspicion (the fetched `totalSupply` is computed but never used by the
source). -/
def step4 (token_contract : String) (snap : Snapshot) (st : ScoreState) :
    ScoreState :=
  if token_contract != "" && risky_tokens.contains token_contract then
    { st with points := st.points + rulePoints "risky_token",
              reasons := st.reasons ++ ["token_in_risky_list"],
              contract := max st.contract (_norm (rulePoints "risky_token") maxPoints) }
  else
    if token_contract != "" then
      if snap.tokenPrice = 0 ∧ snap.tokenMetaTruthy then
        { st with points := st.points + 2,
                  reasons := st.reasons ++ ["token_price_unavailable_or_zero"] }
      else st
    else st

/-- Rule 5: contract source unverified (fires whenever the contract
metadata does not carry `verified`/`isVerified` equal to `True`, which
includes every provider failure). -/
def step5 (token_contract : String) (snap : Snapshot) (st : ScoreState) :
    ScoreState :=
  if token_contract != "" then
    if !snap.contractVerified then
      { st with points := st.points + rulePoints "contract_unverified",
                reasons := st.reasons ++ ["contract_unverified"],
                contract := max st.contract
                  (_norm (rulePoints "contract_unverified") maxPoints) }
    else st
  else st

/-- Rule 6: self-transfer. -/
def step6 (from_addr to_addr : String) (st : ScoreState) : ScoreState :=
  if from_addr != "" && to_addr != "" && from_addr == to_addr then
    { st with points := st.points + rulePoints "self_transfer",
              reasons := st.reasons ++ ["self_transfer"],
              rules := max st.rules (_norm (rulePoints "self_transfer") maxPoints) }
  else st

/-- The hour used by rule 7: the transaction timestamp when present and
truthy, else the current UTC hour. -/
def hourUsed (timestamp : Option ℚ) (now : ℚ) : ℤ :=
  match timestamp with
  | some ts => hourOf ts
  | none => hourOf now

/-- Rule 7: odd-hour timing. -/
def step7 (timestamp : Option ℚ) (now : ℚ) (st : ScoreState) : ScoreState :=
  if hourUsed timestamp now < 3 ∨ hourUsed timestamp now > 22 then
    { st with points := st.points + rulePoints "odd_hour",
              reasons := st.reasons ++ ["odd_hour_tx"],
              rules := max st.rules (_norm (rulePoints "odd_hour") maxPoints) }
  else st

/-- The trailing-hour count of rule 8 (entries without a truthy
timestamp are skipped by the loop's `continue`). -/
def burstCount (l : List (Option ℚ)) (now : ℚ) : ℕ :=
  l.countP (fun e =>
    match e with
    | some ts => decide (now - ts < 3600)
    | none => false)

/-- Rule 8: rapid burst from the sender. -/
def step8 (from_addr : String) (snap : Snapshot) (now : ℚ)
    (st : ScoreState) : ScoreState :=
  match getFromTxs20 snap from_addr with
  | .txs l =>
      if burstCount l now ≥ 5 then
        { st with points := st.points + rulePoints "rapid_spam",
                  reasons := st.reasons ++ ["rapid_sender_burst"],
                  rules := max st.rules (_norm (rulePoints "rapid_spam") maxPoints) }
      else st
  | _ => st

/-- Rule 9: dusting. -/
def step9 (amount_usd : ℚ) (from_addr : String) (snap : Snapshot)
    (st : ScoreState) : ScoreState :=
  if amount_usd < 1 then
    match getFromTxs50 snap from_addr with
    | .txs l =>
        if l.length > 10 then
          { st with points := st.points + rulePoints "dusting",
                    reasons := st.reasons ++ ["possible_dusting"],
                    rules := max st.rules (_norm (rulePoints "dusting") maxPoints) }
        else st
    | _ => st
  else st

/-- Rule 10: large deviation from the sender average.  Python would
raise (and the surrounding `except` would swallow the rule) on division
by exactly zero; rational division by zero is 0 < 10 here, so the rule
is skipped in both semantics. -/
def step10 (amount_usd : ℚ) (features : Features) (st : ScoreState) :
    ScoreState :=
  match features.sender_avg_tx_usd with
  | some v =>
      if v ≠ 0 then
        if amount_usd / (v + 1e-9) ≥ 10 then
          { st with points := st.points + rulePoints "large_deviation",
                    reasons := st.reasons ++ ["amount_much_larger_than_sender_avg"],
                    tabular := max st.tabular
                      (_norm (rulePoints "large_deviation") maxPoints) }
        else st
      else st
  | none => st

end Scorer

/-- Characterwise list-prefix test (used to model the Python substring
operator `in`). -/
def listStartsWith : List Char → List Char → Bool
  | [], _ => true
  | _ :: _, [] => false
  | a :: as, b :: bs => a == b && listStartsWith as bs

/-- Substring occurrence test on character lists. -/
def listHasInfix (sub : List Char) : List Char → Bool
  | [] => sub.isEmpty
  | c :: t => listStartsWith sub (c :: t) || listHasInfix sub t

/-- Python `sub in s` on strings. -/
def pyIn (sub s : String) : Bool := listHasInfix sub.data s.data

/-- Python `sep.join(parts)`. -/
def pyJoin (sep : String) : List String → String
  | [] => ""
  | [x] => x
  | x :: xs => x ++ sep ++ pyJoin sep xs

namespace Scorer

/-- The impact assigned to a fired reason when building `top_features`
(the `if/elif` chain over `r` in the source, with its substring tests). -/
def impactOf (r : String) : ℚ :=
  if r = "address_on_blacklist" then 0.95
  else if pyIn "high_amount" r then 0.8
  else if pyIn "contract_unverified" r then 0.7
  else 0.5

/-- One entry of `top_features` (`value` is always the literal `True`). -/
structure TopFeature where
  feature : String
  value : Bool
  impact : ℚ

/-- The rounded `component_scores` dictionary of the returned verdict. -/
structure ComponentScores where
  rules : ℚ
  tabular : ℚ
  sequence : ℚ
  graph : ℚ
  contract : ℚ

/-- The dictionary returned by `score_pre_transaction`. -/
structure Verdict where
  risk_score : ℤ
  risk_label : String
  component_scores : ComponentScores
  top_features : List TopFeature
  reason_text : String
  action : String
  raw_points : ℚ
  max_possible_points : ℚ

/-- The tail of `score_pre_transaction` after the ten rules: risk score
normalization (`int(round((points / max_points) * 100, 2))` clamped to
[0, 100]), label/action thresholds, `top_features`, `reason_text`, and
the rounded component dictionary. -/
def finalize (st : ScoreState) : Verdict :=
  let max_points := maxPoints
  let risk0 := pyTrunc (pyRound2 (st.points / max_points * 100))
  let risk_score := max 0 (min 100 risk0)
  { risk_score := risk_score
  , risk_label :=
      if risk_score ≥ 85 then "high_risk"
      else if risk_score ≥ 60 then "suspicious" else "safe"
  , component_scores :=
      ⟨pyRound3 st.rules, pyRound3 st.tabular, pyRound3 st.sequence,
       pyRound3 st.graph, pyRound3 st.contract⟩
  , top_features := st.reasons.map (fun r => ⟨r, true, impactOf r⟩)
  , reason_text :=
      if st.reasons = [] then "No immediate red flags detected (online checks OK)."
      else pyJoin "; " st.reasons
  , action :=
      if risk_score ≥ 85 then "block"
      else if risk_score ≥ 60 then "warn" else "allow"
  , raw_points := st.points
  , max_possible_points := max_points }

/-- `Scorer.score_pre_transaction`, as the composition of the address
normalization, the ten rule blocks in source order, and the final
assembly.  The frozen provider snapshot and the wall-clock reading are
explicit arguments. -/
def score_pre_transaction (tx : Transaction) (features : Features)
    (snap : Snapshot) (now : ℚ) : Verdict :=
  let from_addr := pyLower tx.from_addr
  let to_addr := pyLower tx.to_addr
  let token_contract := pyLower tx.token_contract
  let amount_usd := tx.amount_usd
  finalize
    (step10 amount_usd features
      (step9 amount_usd from_addr snap
        (step8 from_addr snap now
          (step7 tx.timestamp now
            (step6 from_addr to_addr
              (step5 token_contract snap
                (step4 token_contract snap
                  (step3 to_addr features snap now
                    (step2 amount_usd
                      (step1 from_addr to_addr initState))))))))))

end Scorer

namespace Scorer

/-! Projection lemmas: no rule block ever writes the `sequence` or
`graph` component, and each block's writes to the other fields are
governed by conditions on the call arguments only. -/

theorem step1_seq (f t : String) (st : ScoreState) :
    (step1 f t st).sequence = st.sequence := by
  unfold step1
  split <;> rfl

theorem step1_graph (f t : String) (st : ScoreState) :
    (step1 f t st).graph = st.graph := by
  unfold step1
  split <;> rfl

theorem step2_seq (a : ℚ) (st : ScoreState) :
    (step2 a st).sequence = st.sequence := by
  unfold step2
  split_ifs <;> rfl

theorem step2_graph (a : ℚ) (st : ScoreState) :
    (step2 a st).graph = st.graph := by
  unfold step2
  split_ifs <;> rfl

theorem step3_seq (t : String) (f : Features) (s : Snapshot) (n : ℚ)
    (st : ScoreState) : (step3 t f s n st).sequence = st.sequence := by
  unfold step3
  split <;> rfl

theorem step3_graph (t : String) (f : Features) (s : Snapshot) (n : ℚ)
    (st : ScoreState) : (step3 t f s n st).graph = st.graph := by
  unfold step3
  split <;> rfl

theorem step4_seq (t : String) (s : Snapshot) (st : ScoreState) :
    (step4 t s st).sequence = st.sequence := by
  unfold step4
  split_ifs <;> rfl

theorem step4_graph (t : String) (s : Snapshot) (st : ScoreState) :
    (step4 t s st).graph = st.graph := by
  unfold step4
  split_ifs <;> rfl

theorem step5_seq (t : String) (s : Snapshot) (st : ScoreState) :
    (step5 t s st).sequence = st.sequence := by
  unfold step5
  split_ifs <;> rfl

theorem step5_graph (t : String) (s : Snapshot) (st : ScoreState) :
    (step5 t s st).graph = st.graph := by
  unfold step5
  split_ifs <;> rfl

theorem step6_seq (f t : String) (st : ScoreState) :
    (step6 f t st).sequence = st.sequence := by
  unfold step6
  split <;> rfl

theorem step6_graph (f t : String) (st : ScoreState) :
    (step6 f t st).graph = st.graph := by
  unfold step6
  split <;> rfl

theorem step7_seq (ts : Option ℚ) (n : ℚ) (st : ScoreState) :
    (step7 ts n st).sequence = st.sequence := by
  unfold step7
  split <;> rfl

theorem step7_graph (ts : Option ℚ) (n : ℚ) (st : ScoreState) :
    (step7 ts n st).graph = st.graph := by
  unfold step7
  split <;> rfl

theorem step8_seq (f : String) (s : Snapshot) (n : ℚ) (st : ScoreState) :
    (step8 f s n st).sequence = st.sequence := by
  unfold step8
  split <;> first | rfl | (split <;> rfl)

theorem step8_graph (f : String) (s : Snapshot) (n : ℚ) (st : ScoreState) :
    (step8 f s n st).graph = st.graph := by
  unfold step8
  split <;> first | rfl | (split <;> rfl)

theorem step9_seq (a : ℚ) (f : String) (s : Snapshot) (st : ScoreState) :
    (step9 a f s st).sequence = st.sequence := by
  unfold step9
  split
  · split <;> first | rfl | (split <;> rfl)
  · rfl

theorem step9_graph (a : ℚ) (f : String) (s : Snapshot) (st : ScoreState) :
    (step9 a f s st).graph = st.graph := by
  unfold step9
  split
  · split <;> first | rfl | (split <;> rfl)
  · rfl

theorem step10_seq (a : ℚ) (f : Features) (st : ScoreState) :
    (step10 a f st).sequence = st.sequence := by
  unfold step10
  split <;> first | rfl | (split_ifs <;> rfl)

theorem step10_graph (a : ℚ) (f : Features) (st : ScoreState) :
    (step10 a f st).graph = st.graph := by
  unfold step10
  split <;> first | rfl | (split_ifs <;> rfl)

end Scorer

theorem pyRound3_zero : pyRound3 0 = 0 := by
  rw [pyRound3_eq 0 (by norm_num) (by norm_num)]
  norm_num

namespace Scorer

theorem finalize_sequence (st : ScoreState) :
    (finalize st).component_scores.sequence = pyRound3 st.sequence := rfl

theorem finalize_graph (st : ScoreState) :
    (finalize st).component_scores.graph = pyRound3 st.graph := rfl

theorem finalize_rules (st : ScoreState) :
    (finalize st).component_scores.rules = pyRound3 st.rules := rfl

theorem finalize_tabular (st : ScoreState) :
    (finalize st).component_scores.tabular = pyRound3 st.tabular := rfl

theorem finalize_contract (st : ScoreState) :
    (finalize st).component_scores.contract = pyRound3 st.contract := rfl

end Scorer

/-- Helper: the `sequence` component of every verdict is 0 (the
aggregator never writes it, and `round(0.0, 3) = 0`). -/
theorem score_sequence_component (tx : Transaction) (features : Features)
    (snap : Snapshot) (now : ℚ) :
    (Scorer.score_pre_transaction tx features snap now).component_scores.sequence = 0 := by
  unfold Scorer.score_pre_transaction
  rw [Scorer.finalize_sequence, Scorer.step10_seq, Scorer.step9_seq, Scorer.step8_seq,
    Scorer.step7_seq, Scorer.step6_seq, Scorer.step5_seq, Scorer.step4_seq,
    Scorer.step3_seq, Scorer.step2_seq, Scorer.step1_seq]
  exact pyRound3_zero

/-- Helper: the `graph` component of every verdict is 0. -/
theorem score_graph_component (tx : Transaction) (features : Features)
    (snap : Snapshot) (now : ℚ) :
    (Scorer.score_pre_transaction tx features snap now).component_scores.graph = 0 := by
  unfold Scorer.score_pre_transaction
  rw [Scorer.finalize_graph, Scorer.step10_graph, Scorer.step9_graph, Scorer.step8_graph,
    Scorer.step7_graph, Scorer.step6_graph, Scorer.step5_graph, Scorer.step4_graph,
    Scorer.step3_graph, Scorer.step2_graph, Scorer.step1_graph]
  exact pyRound3_zero

/-- C10: for every transaction input and every outcome of the chain-data
lookups, the verdict's `sequence` and `graph` components are 0.0: the
aggregator never invokes the sequence or graph sub-models and never
writes those two entries of `component_scores`. -/
theorem C10_sequence_graph_never_written (tx : Transaction)
    (features : Features) (snap : Snapshot) (now : ℚ) :
    (Scorer.score_pre_transaction tx features snap now).component_scores.sequence = 0 ∧
    (Scorer.score_pre_transaction tx features snap now).component_scores.graph = 0 :=
  ⟨score_sequence_component tx features snap now,
   score_graph_component tx features snap now⟩

/-- The snapshot produced when every provider call fails (network error,
timeout, parse failure, or missing API key): `get_address_transactions`
returns an error dictionary, `get_token_metadata` returns an error
dictionary too (which is a truthy Python object), `get_token_price`
falls back to 0.0, and the contract metadata carries no
`verified`/`isVerified` flag. -/
def failingSnapshot : Snapshot :=
  { toTxs1 := .errDict, fromTxs20 := .errDict, fromTxs50 := .errDict,
    tokenMetaTruthy := true, tokenPrice := 0, contractVerified := false }

/-- C4: when every chain-data provider call fails, scoring still returns
a verdict (the embedding is a total function, mirroring the
try/except-per-rule and never-raising provider of the source), with the
`graph` and `sequence` components at their neutral default 0.0. -/
theorem C4_graceful_degradation (tx : Transaction) (features : Features)
    (now : ℚ) :
    (Scorer.score_pre_transaction tx features failingSnapshot now).component_scores.sequence = 0 ∧
    (Scorer.score_pre_transaction tx features failingSnapshot now).component_scores.graph = 0 :=
  ⟨score_sequence_component tx features failingSnapshot now,
   score_graph_component tx features failingSnapshot now⟩

/-- C3: every verdict's label and action agree with the fixed
thresholds on its risk score: at least 85 means high_risk/block, at
least 60 means suspicious/warn, and below 60 means safe/allow. -/
theorem C3_label_action_consistency (tx : Transaction) (features : Features)
    (snap : Snapshot) (now : ℚ) :
    (Scorer.score_pre_transaction tx features snap now).risk_label =
      (if (Scorer.score_pre_transaction tx features snap now).risk_score ≥ 85
        then "high_risk"
        else if (Scorer.score_pre_transaction tx features snap now).risk_score ≥ 60
          then "suspicious" else "safe") ∧
    (Scorer.score_pre_transaction tx features snap now).action =
      (if (Scorer.score_pre_transaction tx features snap now).risk_score ≥ 85
        then "block"
        else if (Scorer.score_pre_transaction tx features snap now).risk_score ≥ 60
          then "warn" else "allow") :=
  ⟨rfl, rfl⟩

/-- C1 amended: the risk score is not a weighted combination of the five
component scores; it is the rule-point total normalized by the maximum
possible points (180), scaled by 100, rounded to 2 decimals, truncated
to an integer by Python `int`, and clamped to [0, 100]. -/
theorem C1_amended_points_normalization (tx : Transaction)
    (features : Features) (snap : Snapshot) (now : ℚ) :
    (Scorer.score_pre_transaction tx features snap now).risk_score =
      max 0 (min 100 (pyTrunc (pyRound2
        ((Scorer.score_pre_transaction tx features snap now).raw_points /
         (Scorer.score_pre_transaction tx features snap now).max_possible_points
          * 100)))) := rfl

/-- C8 amended: a verdict is a pure function of the transaction, the
feature dictionary, the frozen provider snapshot AND the wall-clock
reading; two scoring calls that agree on all four inputs produce
identical verdicts.  (The counterexample shows the clock cannot be
dropped from this list.) -/
theorem C8_amended_determinism (tx tx2 : Transaction) (f f2 : Features)
    (s s2 : Snapshot) (n n2 : ℚ) (htx : tx = tx2) (hf : f = f2)
    (hs : s = s2) (hn : n = n2) :
    Scorer.score_pre_transaction tx f s n = Scorer.score_pre_transaction tx2 f2 s2 n2 := by
  rw [htx, hf, hs, hn]

/-! ## Concrete evaluation for claim C1 -/

/-- A transaction used to refute C1: an ordinary 500 USD transfer at
12:00 UTC carrying a token contract that is neither risky nor
blacklisted. -/
def txC1 : Transaction :=
  { chain := "ethereum", from_addr := "0xaaaa1", to_addr := "0xbbbb2",
    token_contract := "0xtok", amount_usd := 500, timestamp := some 43200 }

/-- No precomputed features. -/
def featC1 : Features := ⟨none, none⟩

/-- A snapshot whose token metadata is truthy with a zero price (so the
+2-point suspicion fires without touching any component score) and whose
contract metadata is verified. -/
def snapC1 : Snapshot :=
  { toTxs1 := .otherDict, fromTxs20 := .otherDict, fromTxs50 := .otherDict,
    tokenMetaTruthy := true, tokenPrice := 0, contractVerified := true }

theorem scoreC1_state :
    Scorer.score_pre_transaction txC1 featC1 snapC1 0 =
      Scorer.finalize ⟨2, ["token_price_unavailable_or_zero"], 0, 0, 0, 0, 0⟩ := by
  have e1 : pyLower txC1.from_addr = "0xaaaa1" := by decide
  have e2 : pyLower txC1.to_addr = "0xbbbb2" := by decide
  have e3 : pyLower txC1.token_contract = "0xtok" := by decide
  have e4 : txC1.amount_usd = 500 := rfl
  have e5 : txC1.timestamp = some 43200 := rfl
  simp only [Scorer.score_pre_transaction, e1, e2, e3, e4, e5]
  have s1 : Scorer.step1 "0xaaaa1" "0xbbbb2" Scorer.initState = Scorer.initState := by
    unfold Scorer.step1
    rw [if_neg (by decide)]
  rw [s1]
  have s2 : Scorer.step2 500 Scorer.initState = Scorer.initState := by
    simp only [Scorer.step2]
    rw [if_neg (by norm_num : ¬ ((500:ℚ) ≥ 100000)),
        if_neg (by norm_num : ¬ ((500:ℚ) ≥ 10000)),
        if_neg (by norm_num : ¬ ((500:ℚ) ≥ 1000))]
    norm_num [Scorer.initState, Scorer._norm, Scorer.maxPoints]
  rw [s2]
  have s3 : Scorer.step3 "0xbbbb2" featC1 snapC1 0 Scorer.initState = Scorer.initState := by
    unfold Scorer.step3
    rw [if_neg (by decide)]
  rw [s3]
  have s4 : Scorer.step4 "0xtok" snapC1 Scorer.initState =
      (⟨2, ["token_price_unavailable_or_zero"], 0, 0, 0, 0, 0⟩ : Scorer.ScoreState) := by
    simp only [Scorer.step4]
    rw [if_neg (by decide), if_pos (by decide : ("0xtok" != "") = true),
        if_pos (⟨rfl, rfl⟩ : snapC1.tokenPrice = 0 ∧ snapC1.tokenMetaTruthy = true)]
    norm_num [Scorer.initState]
  rw [s4]
  have s5 : Scorer.step5 "0xtok" snapC1
      (⟨2, ["token_price_unavailable_or_zero"], 0, 0, 0, 0, 0⟩ : Scorer.ScoreState) =
      (⟨2, ["token_price_unavailable_or_zero"], 0, 0, 0, 0, 0⟩ : Scorer.ScoreState) := by
    unfold Scorer.step5
    rw [if_pos (by decide : ("0xtok" != "") = true), if_neg (by decide)]
  rw [s5]
  have s6 : Scorer.step6 "0xaaaa1" "0xbbbb2"
      (⟨2, ["token_price_unavailable_or_zero"], 0, 0, 0, 0, 0⟩ : Scorer.ScoreState) =
      (⟨2, ["token_price_unavailable_or_zero"], 0, 0, 0, 0, 0⟩ : Scorer.ScoreState) := by
    unfold Scorer.step6
    rw [if_neg (by decide)]
  rw [s6]
  have hh : Scorer.hourUsed (some 43200) 0 = 12 := by
    show (⌊(43200:ℚ) / 3600⌋ : ℤ) % 24 = 12
    rw [show (43200:ℚ)/3600 = ((12:ℤ):ℚ) by norm_num, Int.floor_intCast]
    decide
  have s7 : Scorer.step7 (some 43200) 0
      (⟨2, ["token_price_unavailable_or_zero"], 0, 0, 0, 0, 0⟩ : Scorer.ScoreState) =
      (⟨2, ["token_price_unavailable_or_zero"], 0, 0, 0, 0, 0⟩ : Scorer.ScoreState) := by
    unfold Scorer.step7
    rw [hh]
    rw [if_neg (by decide)]
  rw [s7]
  have s8 : Scorer.step8 "0xaaaa1" snapC1 0
      (⟨2, ["token_price_unavailable_or_zero"], 0, 0, 0, 0, 0⟩ : Scorer.ScoreState) =
      (⟨2, ["token_price_unavailable_or_zero"], 0, 0, 0, 0, 0⟩ : Scorer.ScoreState) := by
    unfold Scorer.step8
    rw [show getFromTxs20 snapC1 "0xaaaa1" = TxsResp.otherDict from rfl]
  rw [s8]
  have s9 : Scorer.step9 500 "0xaaaa1" snapC1
      (⟨2, ["token_price_unavailable_or_zero"], 0, 0, 0, 0, 0⟩ : Scorer.ScoreState) =
      (⟨2, ["token_price_unavailable_or_zero"], 0, 0, 0, 0, 0⟩ : Scorer.ScoreState) := by
    unfold Scorer.step9
    rw [if_neg (by norm_num : ¬ ((500:ℚ) < 1))]
  rw [s9]
  have s10 : Scorer.step10 500 featC1
      (⟨2, ["token_price_unavailable_or_zero"], 0, 0, 0, 0, 0⟩ : Scorer.ScoreState) =
      (⟨2, ["token_price_unavailable_or_zero"], 0, 0, 0, 0, 0⟩ : Scorer.ScoreState) := rfl
  rw [s10]

theorem scoreC1_risk :
    (Scorer.score_pre_transaction txC1 featC1 snapC1 0).risk_score = 1 := by
  rw [scoreC1_state]
  show max 0 (min 100 (pyTrunc (pyRound2 ((2:ℚ) / Scorer.maxPoints * 100)))) = 1
  rw [show (2:ℚ) / Scorer.maxPoints * 100 = 10/9 by norm_num [Scorer.maxPoints]]
  rw [pyRound2_eq 111 (by norm_num) (by norm_num)]
  rw [pyTrunc_eq 1 (by norm_num) (by norm_num) (by norm_num)]
  decide

theorem scoreC1_rules :
    (Scorer.score_pre_transaction txC1 featC1 snapC1 0).component_scores.rules = 0 := by
  rw [scoreC1_state, Scorer.finalize_rules]
  exact pyRound3_zero

theorem scoreC1_tabular :
    (Scorer.score_pre_transaction txC1 featC1 snapC1 0).component_scores.tabular = 0 := by
  rw [scoreC1_state, Scorer.finalize_tabular]
  exact pyRound3_zero

theorem scoreC1_contract :
    (Scorer.score_pre_transaction txC1 featC1 snapC1 0).component_scores.contract = 0 := by
  rw [scoreC1_state, Scorer.finalize_contract]
  exact pyRound3_zero

/-- C1 counterexample: the risk score is NOT 100 times any fixed
convex-weight combination of the five component scores rounded to 2
decimals.  For `txC1` every component score is 0 (so every weighted sum
is 0 regardless of the weights), yet the code returns a risk score of 1,
because the +2-point token-price suspicion raises the point total
without touching any component. -/
theorem C1_counterexample :
    ¬ ∃ wr wt ws wg wc : ℚ, wr + wt + ws + wg + wc = 1 ∧
      ∀ tx f s n, ((Scorer.score_pre_transaction tx f s n).risk_score : ℚ) =
        pyRound2 (100 *
          (wr * (Scorer.score_pre_transaction tx f s n).component_scores.rules
         + wt * (Scorer.score_pre_transaction tx f s n).component_scores.tabular
         + ws * (Scorer.score_pre_transaction tx f s n).component_scores.sequence
         + wg * (Scorer.score_pre_transaction tx f s n).component_scores.graph
         + wc * (Scorer.score_pre_transaction tx f s n).component_scores.contract)) := by
  rintro ⟨wr, wt, ws, wg, wc, hsum, hall⟩
  have h := hall txC1 featC1 snapC1 0
  rw [scoreC1_risk, scoreC1_rules, scoreC1_tabular, scoreC1_contract,
      score_sequence_component, score_graph_component] at h
  rw [show (100:ℚ) * (wr * 0 + wt * 0 + ws * 0 + wg * 0 + wc * 0) = 0 by ring] at h
  rw [show pyRound2 0 = 0 by
    rw [pyRound2_eq 0 (by norm_num) (by norm_num)]
    norm_num] at h
  norm_num at h

/-! ## Concrete evaluations for claim C8 -/

/-- A transaction used to refute C8: a plain 500 USD transfer with a
fixed timestamp and no token contract. -/
def tx8 : Transaction :=
  { chain := "ethereum", from_addr := "0xaaaa1", to_addr := "0xbbbb2",
    token_contract := "", amount_usd := 500, timestamp := some 43200 }

/-- No precomputed features. -/
def feat8 : Features := ⟨none, none⟩

/-- A frozen snapshot in which the recipient's first transaction is at
epoch instant 0. -/
def snap8 : Snapshot :=
  { toTxs1 := .txs [some 0], fromTxs20 := .otherDict, fromTxs50 := .otherDict,
    tokenMetaTruthy := false, tokenPrice := 0, contractVerified := false }

theorem daysBetween_864000 : daysBetween 864000 0 = 10 := by
  show (⌊((864000:ℚ) - 0)/86400⌋ : ℤ) = 10
  rw [show ((864000:ℚ) - 0)/86400 = ((10:ℤ):ℚ) by norm_num, Int.floor_intCast]

theorem daysBetween_3456000 : daysBetween 3456000 0 = 40 := by
  show (⌊((3456000:ℚ) - 0)/86400⌋ : ℤ) = 40
  rw [show ((3456000:ℚ) - 0)/86400 = ((40:ℤ):ℚ) by norm_num, Int.floor_intCast]

theorem score8_state_early :
    Scorer.score_pre_transaction tx8 feat8 snap8 864000 =
      Scorer.finalize ⟨20, ["recipient_fresh_wallet"], 1/9, 0, 0, 0, 0⟩ := by
  have e1 : pyLower tx8.from_addr = "0xaaaa1" := by decide
  have e2 : pyLower tx8.to_addr = "0xbbbb2" := by decide
  have e3 : pyLower tx8.token_contract = "" := by decide
  have e4 : tx8.amount_usd = 500 := rfl
  have e5 : tx8.timestamp = some 43200 := rfl
  simp only [Scorer.score_pre_transaction, e1, e2, e3, e4, e5]
  have s1 : Scorer.step1 "0xaaaa1" "0xbbbb2" Scorer.initState = Scorer.initState := by
    unfold Scorer.step1
    rw [if_neg (by decide)]
  rw [s1]
  have s2 : Scorer.step2 500 Scorer.initState = Scorer.initState := by
    simp only [Scorer.step2]
    rw [if_neg (by norm_num : ¬ ((500:ℚ) ≥ 100000)),
        if_neg (by norm_num : ¬ ((500:ℚ) ≥ 10000)),
        if_neg (by norm_num : ¬ ((500:ℚ) ≥ 1000))]
    norm_num [Scorer.initState, Scorer._norm, Scorer.maxPoints]
  rw [s2]
  have hf1 : Scorer.freshCond "0xbbbb2" feat8 snap8 864000 = true := by
    show decide (daysBetween 864000 0 < 30) = true
    simp only [daysBetween_864000]
    decide
  have s3 : Scorer.step3 "0xbbbb2" feat8 snap8 864000 Scorer.initState =
      (⟨20, ["recipient_fresh_wallet"], 1/9, 0, 0, 0, 0⟩ : Scorer.ScoreState) := by
    unfold Scorer.step3
    rw [if_pos hf1]
    norm_num [Scorer.initState, Scorer._norm, Scorer.maxPoints, Scorer.rulePoints]
  rw [s3]
  have s4 : Scorer.step4 "" snap8
      (⟨20, ["recipient_fresh_wallet"], 1/9, 0, 0, 0, 0⟩ : Scorer.ScoreState) =
      (⟨20, ["recipient_fresh_wallet"], 1/9, 0, 0, 0, 0⟩ : Scorer.ScoreState) := by
    unfold Scorer.step4
    rw [if_neg (by decide), if_neg (by decide)]
  rw [s4]
  have s5 : Scorer.step5 "" snap8
      (⟨20, ["recipient_fresh_wallet"], 1/9, 0, 0, 0, 0⟩ : Scorer.ScoreState) =
      (⟨20, ["recipient_fresh_wallet"], 1/9, 0, 0, 0, 0⟩ : Scorer.ScoreState) := by
    unfold Scorer.step5
    rw [if_neg (by decide)]
  rw [s5]
  have s6 : Scorer.step6 "0xaaaa1" "0xbbbb2"
      (⟨20, ["recipient_fresh_wallet"], 1/9, 0, 0, 0, 0⟩ : Scorer.ScoreState) =
      (⟨20, ["recipient_fresh_wallet"], 1/9, 0, 0, 0, 0⟩ : Scorer.ScoreState) := by
    unfold Scorer.step6
    rw [if_neg (by decide)]
  rw [s6]
  have hh : Scorer.hourUsed (some 43200) 864000 = 12 := by
    show (⌊(43200:ℚ) / 3600⌋ : ℤ) % 24 = 12
    rw [show (43200:ℚ)/3600 = ((12:ℤ):ℚ) by norm_num, Int.floor_intCast]
    decide
  have s7 : Scorer.step7 (some 43200) 864000
      (⟨20, ["recipient_fresh_wallet"], 1/9, 0, 0, 0, 0⟩ : Scorer.ScoreState) =
      (⟨20, ["recipient_fresh_wallet"], 1/9, 0, 0, 0, 0⟩ : Scorer.ScoreState) := by
    unfold Scorer.step7
    rw [hh]
    rw [if_neg (by decide)]
  rw [s7]
  have s8 : Scorer.step8 "0xaaaa1" snap8 864000
      (⟨20, ["recipient_fresh_wallet"], 1/9, 0, 0, 0, 0⟩ : Scorer.ScoreState) =
      (⟨20, ["recipient_fresh_wallet"], 1/9, 0, 0, 0, 0⟩ : Scorer.ScoreState) := by
    unfold Scorer.step8
    rw [show getFromTxs20 snap8 "0xaaaa1" = TxsResp.otherDict from rfl]
  rw [s8]
  have s9 : Scorer.step9 500 "0xaaaa1" snap8
      (⟨20, ["recipient_fresh_wallet"], 1/9, 0, 0, 0, 0⟩ : Scorer.ScoreState) =
      (⟨20, ["recipient_fresh_wallet"], 1/9, 0, 0, 0, 0⟩ : Scorer.ScoreState) := by
    unfold Scorer.step9
    rw [if_neg (by norm_num : ¬ ((500:ℚ) < 1))]
  rw [s9]
  have s10 : Scorer.step10 500 feat8
      (⟨20, ["recipient_fresh_wallet"], 1/9, 0, 0, 0, 0⟩ : Scorer.ScoreState) =
      (⟨20, ["recipient_fresh_wallet"], 1/9, 0, 0, 0, 0⟩ : Scorer.ScoreState) := rfl
  rw [s10]

theorem score8_state_late :
    Scorer.score_pre_transaction tx8 feat8 snap8 3456000 =
      Scorer.finalize Scorer.initState := by
  have e1 : pyLower tx8.from_addr = "0xaaaa1" := by decide
  have e2 : pyLower tx8.to_addr = "0xbbbb2" := by decide
  have e3 : pyLower tx8.token_contract = "" := by decide
  have e4 : tx8.amount_usd = 500 := rfl
  have e5 : tx8.timestamp = some 43200 := rfl
  simp only [Scorer.score_pre_transaction, e1, e2, e3, e4, e5]
  have s1 : Scorer.step1 "0xaaaa1" "0xbbbb2" Scorer.initState = Scorer.initState := by
    unfold Scorer.step1
    rw [if_neg (by decide)]
  rw [s1]
  have s2 : Scorer.step2 500 Scorer.initState = Scorer.initState := by
    simp only [Scorer.step2]
    rw [if_neg (by norm_num : ¬ ((500:ℚ) ≥ 100000)),
        if_neg (by norm_num : ¬ ((500:ℚ) ≥ 10000)),
        if_neg (by norm_num : ¬ ((500:ℚ) ≥ 1000))]
    norm_num [Scorer.initState, Scorer._norm, Scorer.maxPoints]
  rw [s2]
  have hf2 : Scorer.freshCond "0xbbbb2" feat8 snap8 3456000 = false := by
    show decide (daysBetween 3456000 0 < 30) = false
    simp only [daysBetween_3456000]
    decide
  have s3 : Scorer.step3 "0xbbbb2" feat8 snap8 3456000 Scorer.initState =
      Scorer.initState := by
    unfold Scorer.step3
    rw [if_neg (by rw [hf2]; exact Bool.false_ne_true)]
  rw [s3]
  have s4 : Scorer.step4 "" snap8 Scorer.initState = Scorer.initState := by
    unfold Scorer.step4
    rw [if_neg (by decide), if_neg (by decide)]
  rw [s4]
  have s5 : Scorer.step5 "" snap8 Scorer.initState = Scorer.initState := by
    unfold Scorer.step5
    rw [if_neg (by decide)]
  rw [s5]
  have s6 : Scorer.step6 "0xaaaa1" "0xbbbb2" Scorer.initState = Scorer.initState := by
    unfold Scorer.step6
    rw [if_neg (by decide)]
  rw [s6]
  have hh : Scorer.hourUsed (some 43200) 3456000 = 12 := by
    show (⌊(43200:ℚ) / 3600⌋ : ℤ) % 24 = 12
    rw [show (43200:ℚ)/3600 = ((12:ℤ):ℚ) by norm_num, Int.floor_intCast]
    decide
  have s7 : Scorer.step7 (some 43200) 3456000 Scorer.initState = Scorer.initState := by
    unfold Scorer.step7
    rw [hh]
    rw [if_neg (by decide)]
  rw [s7]
  have s8 : Scorer.step8 "0xaaaa1" snap8 3456000 Scorer.initState = Scorer.initState := by
    unfold Scorer.step8
    rw [show getFromTxs20 snap8 "0xaaaa1" = TxsResp.otherDict from rfl]
  rw [s8]
  have s9 : Scorer.step9 500 "0xaaaa1" snap8 Scorer.initState = Scorer.initState := by
    unfold Scorer.step9
    rw [if_neg (by norm_num : ¬ ((500:ℚ) < 1))]
  rw [s9]
  have s10 : Scorer.step10 500 feat8 Scorer.initState = Scorer.initState := rfl
  rw [s10]

theorem score8_risk_early :
    (Scorer.score_pre_transaction tx8 feat8 snap8 864000).risk_score = 11 := by
  rw [score8_state_early]
  show max 0 (min 100 (pyTrunc (pyRound2 ((20:ℚ) / Scorer.maxPoints * 100)))) = 11
  rw [show (20:ℚ) / Scorer.maxPoints * 100 = 100/9 by norm_num [Scorer.maxPoints]]
  rw [pyRound2_eq 1111 (by norm_num) (by norm_num)]
  rw [pyTrunc_eq 11 (by norm_num) (by norm_num) (by norm_num)]
  decide

theorem score8_risk_late :
    (Scorer.score_pre_transaction tx8 feat8 snap8 3456000).risk_score = 0 := by
  rw [score8_state_late]
  show max 0 (min 100 (pyTrunc (pyRound2 ((0:ℚ) / Scorer.maxPoints * 100)))) = 0
  rw [show (0:ℚ) / Scorer.maxPoints * 100 = 0 by norm_num [Scorer.maxPoints]]
  rw [pyRound2_eq 0 (by norm_num) (by norm_num)]
  rw [pyTrunc_eq 0 (by norm_num) (by norm_num) (by norm_num)]
  decide

/-- C8 counterexample: scoring the same transaction twice against the
SAME frozen snapshot of chain-data responses yields different verdicts
when the two calls read different wall-clock times, because the
fresh-wallet age (and the burst window, and the fallback hour) are
computed from `datetime.now`.  At 10 days after the recipient's first
transaction the verdict scores 11; at 40 days it scores 0. -/
theorem C8_counterexample :
    Scorer.score_pre_transaction tx8 feat8 snap8 864000 ≠
      Scorer.score_pre_transaction tx8 feat8 snap8 3456000 := by
  intro h
  have h2 := congrArg Scorer.Verdict.risk_score h
  rw [score8_risk_early, score8_risk_late] at h2
  exact absurd h2 (by decide)

/-- Witness for the amended C8: at a concrete input, two calls with
equal transaction, features, snapshot and clock produce equal verdicts. -/
theorem C8_amended_determinism_witness :
    tx8 = tx8 ∧ feat8 = feat8 ∧ snap8 = snap8 ∧ (864000:ℚ) = 864000 ∧
    Scorer.score_pre_transaction tx8 feat8 snap8 864000 =
      Scorer.score_pre_transaction tx8 feat8 snap8 864000 :=
  ⟨rfl, rfl, rfl, rfl,
   C8_amended_determinism tx8 tx8 feat8 feat8 snap8 snap8 864000 864000 rfl rfl rfl rfl⟩

namespace Scorer

theorem _norm_nonneg (v m : ℚ) : 0 ≤ _norm v m := le_max_left 0 _

theorem _norm_le_one (v m : ℚ) : _norm v m ≤ 1 :=
  max_le (by norm_num) (min_le_left 1 _)

/-- All five running component scores lie in [0, 1]. -/
def compsInRange (st : ScoreState) : Prop :=
  0 ≤ st.rules ∧ st.rules ≤ 1 ∧ 0 ≤ st.tabular ∧ st.tabular ≤ 1 ∧
  0 ≤ st.sequence ∧ st.sequence ≤ 1 ∧ 0 ≤ st.graph ∧ st.graph ≤ 1 ∧
  0 ≤ st.contract ∧ st.contract ≤ 1

theorem initState_range : compsInRange initState := by
  unfold compsInRange initState
  norm_num

theorem step1_range (f t : String) {st : ScoreState} (h : compsInRange st) :
    compsInRange (step1 f t st) := by
  obtain ⟨a1, a2, a3, a4, a5, a6, a7, a8, a9, a10⟩ := h
  unfold step1
  repeat' split
  all_goals first
    | exact ⟨a1, a2, a3, a4, a5, a6, a7, a8, a9, a10⟩
    | exact ⟨le_trans a1 (le_max_left _ _), max_le a2 (_norm_le_one _ _),
        a3, a4, a5, a6, a7, a8, a9, a10⟩

theorem step2_range (a : ℚ) {st : ScoreState} (h : compsInRange st) :
    compsInRange (step2 a st) := by
  obtain ⟨a1, a2, a3, a4, a5, a6, a7, a8, a9, a10⟩ := h
  unfold step2
  repeat' split
  all_goals
    exact ⟨a1, a2, le_trans a3 (le_max_left _ _), max_le a4 (_norm_le_one _ _),
      a5, a6, a7, a8, a9, a10⟩

theorem step3_range (t : String) (f : Features) (s : Snapshot) (n : ℚ)
    {st : ScoreState} (h : compsInRange st) : compsInRange (step3 t f s n st) := by
  obtain ⟨a1, a2, a3, a4, a5, a6, a7, a8, a9, a10⟩ := h
  unfold step3
  repeat' split
  all_goals first
    | exact ⟨a1, a2, a3, a4, a5, a6, a7, a8, a9, a10⟩
    | exact ⟨le_trans a1 (le_max_left _ _), max_le a2 (_norm_le_one _ _),
        a3, a4, a5, a6, a7, a8, a9, a10⟩

theorem step4_range (t : String) (s : Snapshot) {st : ScoreState}
    (h : compsInRange st) : compsInRange (step4 t s st) := by
  obtain ⟨a1, a2, a3, a4, a5, a6, a7, a8, a9, a10⟩ := h
  unfold step4
  repeat' split
  all_goals first
    | exact ⟨a1, a2, a3, a4, a5, a6, a7, a8, a9, a10⟩
    | exact ⟨a1, a2, a3, a4, a5, a6, a7, a8,
        le_trans a9 (le_max_left _ _), max_le a10 (_norm_le_one _ _)⟩

theorem step5_range (t : String) (s : Snapshot) {st : ScoreState}
    (h : compsInRange st) : compsInRange (step5 t s st) := by
  obtain ⟨a1, a2, a3, a4, a5, a6, a7, a8, a9, a10⟩ := h
  unfold step5
  repeat' split
  all_goals first
    | exact ⟨a1, a2, a3, a4, a5, a6, a7, a8, a9, a10⟩
    | exact ⟨a1, a2, a3, a4, a5, a6, a7, a8,
        le_trans a9 (le_max_left _ _), max_le a10 (_norm_le_one _ _)⟩

theorem step6_range (f t : String) {st : ScoreState} (h : compsInRange st) :
    compsInRange (step6 f t st) := by
  obtain ⟨a1, a2, a3, a4, a5, a6, a7, a8, a9, a10⟩ := h
  unfold step6
  repeat' split
  all_goals first
    | exact ⟨a1, a2, a3, a4, a5, a6, a7, a8, a9, a10⟩
    | exact ⟨le_trans a1 (le_max_left _ _), max_le a2 (_norm_le_one _ _),
        a3, a4, a5, a6, a7, a8, a9, a10⟩

theorem step7_range (ts : Option ℚ) (n : ℚ) {st : ScoreState}
    (h : compsInRange st) : compsInRange (step7 ts n st) := by
  obtain ⟨a1, a2, a3, a4, a5, a6, a7, a8, a9, a10⟩ := h
  unfold step7
  repeat' split
  all_goals first
    | exact ⟨a1, a2, a3, a4, a5, a6, a7, a8, a9, a10⟩
    | exact ⟨le_trans a1 (le_max_left _ _), max_le a2 (_norm_le_one _ _),
        a3, a4, a5, a6, a7, a8, a9, a10⟩

theorem step8_range (f : String) (s : Snapshot) (n : ℚ) {st : ScoreState}
    (h : compsInRange st) : compsInRange (step8 f s n st) := by
  obtain ⟨a1, a2, a3, a4, a5, a6, a7, a8, a9, a10⟩ := h
  unfold step8
  repeat' split
  all_goals first
    | exact ⟨a1, a2, a3, a4, a5, a6, a7, a8, a9, a10⟩
    | exact ⟨le_trans a1 (le_max_left _ _), max_le a2 (_norm_le_one _ _),
        a3, a4, a5, a6, a7, a8, a9, a10⟩

theorem step9_range (a : ℚ) (f : String) (s : Snapshot) {st : ScoreState}
    (h : compsInRange st) : compsInRange (step9 a f s st) := by
  obtain ⟨a1, a2, a3, a4, a5, a6, a7, a8, a9, a10⟩ := h
  unfold step9
  repeat' split
  all_goals first
    | exact ⟨a1, a2, a3, a4, a5, a6, a7, a8, a9, a10⟩
    | exact ⟨le_trans a1 (le_max_left _ _), max_le a2 (_norm_le_one _ _),
        a3, a4, a5, a6, a7, a8, a9, a10⟩

theorem step10_range (a : ℚ) (f : Features) {st : ScoreState}
    (h : compsInRange st) : compsInRange (step10 a f st) := by
  obtain ⟨a1, a2, a3, a4, a5, a6, a7, a8, a9, a10⟩ := h
  unfold step10
  repeat' split
  all_goals first
    | exact ⟨a1, a2, a3, a4, a5, a6, a7, a8, a9, a10⟩
    | exact ⟨a1, a2, le_trans a3 (le_max_left _ _), max_le a4 (_norm_le_one _ _),
        a5, a6, a7, a8, a9, a10⟩

end Scorer

/-- C2: for every transaction with nonnegative `amount_usd` (indeed for
every input), the verdict's risk score lies in [0, 100] and every
component score lies in [0, 1]; both facts come from the explicit
clamps: `max(0, min(100, ...))` on the risk score and the `_norm`
clamp plus rounding on every component write. -/
theorem C2_bounds (tx : Transaction) (features : Features) (snap : Snapshot)
    (now : ℚ) (h : 0 ≤ tx.amount_usd) :
    0 ≤ (Scorer.score_pre_transaction tx features snap now).risk_score ∧
    (Scorer.score_pre_transaction tx features snap now).risk_score ≤ 100 ∧
    0 ≤ (Scorer.score_pre_transaction tx features snap now).component_scores.rules ∧
    (Scorer.score_pre_transaction tx features snap now).component_scores.rules ≤ 1 ∧
    0 ≤ (Scorer.score_pre_transaction tx features snap now).component_scores.tabular ∧
    (Scorer.score_pre_transaction tx features snap now).component_scores.tabular ≤ 1 ∧
    0 ≤ (Scorer.score_pre_transaction tx features snap now).component_scores.sequence ∧
    (Scorer.score_pre_transaction tx features snap now).component_scores.sequence ≤ 1 ∧
    0 ≤ (Scorer.score_pre_transaction tx features snap now).component_scores.graph ∧
    (Scorer.score_pre_transaction tx features snap now).component_scores.graph ≤ 1 ∧
    0 ≤ (Scorer.score_pre_transaction tx features snap now).component_scores.contract ∧
    (Scorer.score_pre_transaction tx features snap now).component_scores.contract ≤ 1 := by
  unfold Scorer.score_pre_transaction
  have hinv : Scorer.compsInRange
      (Scorer.step10 tx.amount_usd features
        (Scorer.step9 tx.amount_usd (pyLower tx.from_addr) snap
          (Scorer.step8 (pyLower tx.from_addr) snap now
            (Scorer.step7 tx.timestamp now
              (Scorer.step6 (pyLower tx.from_addr) (pyLower tx.to_addr)
                (Scorer.step5 (pyLower tx.token_contract) snap
                  (Scorer.step4 (pyLower tx.token_contract) snap
                    (Scorer.step3 (pyLower tx.to_addr) features snap now
                      (Scorer.step2 tx.amount_usd
                        (Scorer.step1 (pyLower tx.from_addr) (pyLower tx.to_addr)
                          Scorer.initState)))))))))) :=
    Scorer.step10_range _ _ (Scorer.step9_range _ _ _ (Scorer.step8_range _ _ _
      (Scorer.step7_range _ _ (Scorer.step6_range _ _ (Scorer.step5_range _ _
        (Scorer.step4_range _ _ (Scorer.step3_range _ _ _ _ (Scorer.step2_range _
          (Scorer.step1_range _ _ Scorer.initState_range)))))))))
  obtain ⟨b1, b2, b3, b4, b5, b6, b7, b8, b9, b10⟩ := hinv
  refine ⟨le_max_left _ _, max_le (by norm_num) (min_le_left _ _),
    ?_, ?_, ?_, ?_, ?_, ?_, ?_, ?_, ?_, ?_⟩
  · exact pyRound3_nonneg b1
  · exact pyRound3_le_one b2
  · exact pyRound3_nonneg b3
  · exact pyRound3_le_one b4
  · exact pyRound3_nonneg b5
  · exact pyRound3_le_one b6
  · exact pyRound3_nonneg b7
  · exact pyRound3_le_one b8
  · exact pyRound3_nonneg b9
  · exact pyRound3_le_one b10

/-- Witness for C2 at a concrete input. -/
theorem C2_bounds_witness :
    0 ≤ tx8.amount_usd ∧
    (0 ≤ (Scorer.score_pre_transaction tx8 feat8 snap8 864000).risk_score ∧
     (Scorer.score_pre_transaction tx8 feat8 snap8 864000).risk_score ≤ 100 ∧
     0 ≤ (Scorer.score_pre_transaction tx8 feat8 snap8 864000).component_scores.rules ∧
     (Scorer.score_pre_transaction tx8 feat8 snap8 864000).component_scores.rules ≤ 1 ∧
     0 ≤ (Scorer.score_pre_transaction tx8 feat8 snap8 864000).component_scores.tabular ∧
     (Scorer.score_pre_transaction tx8 feat8 snap8 864000).component_scores.tabular ≤ 1 ∧
     0 ≤ (Scorer.score_pre_transaction tx8 feat8 snap8 864000).component_scores.sequence ∧
     (Scorer.score_pre_transaction tx8 feat8 snap8 864000).component_scores.sequence ≤ 1 ∧
     0 ≤ (Scorer.score_pre_transaction tx8 feat8 snap8 864000).component_scores.graph ∧
     (Scorer.score_pre_transaction tx8 feat8 snap8 864000).component_scores.graph ≤ 1 ∧
     0 ≤ (Scorer.score_pre_transaction tx8 feat8 snap8 864000).component_scores.contract ∧
     (Scorer.score_pre_transaction tx8 feat8 snap8 864000).component_scores.contract ≤ 1) :=
  ⟨by norm_num [tx8], C2_bounds tx8 feat8 snap8 864000 (by norm_num [tx8])⟩

namespace Scorer

/-- The amount-tier points of rule 2 (25 / 15 / 5 / 0 across the
100,000 / 10,000 / 1,000 USD boundaries). -/
def tierPoints (a : ℚ) : ℚ :=
  if a ≥ 100000 then rulePoints "high_amount"
  else if a ≥ 10000 then rulePoints "high_amount" * 0.6
  else if a ≥ 1000 then rulePoints "high_amount" * 0.2
  else 0

/-- Whether rule 10 (large deviation from the sender average) fires. -/
def devCond (a : ℚ) (f : Features) : Bool :=
  match f.sender_avg_tx_usd with
  | some v => decide (v ≠ 0) && decide (a / (v + 1e-9) ≥ 10)
  | none => false

theorem step2_tabular (a : ℚ) (st : ScoreState) :
    (step2 a st).tabular = max st.tabular (_norm (st.points + tierPoints a) maxPoints) := by
  unfold step2 tierPoints
  split_ifs <;> first | rfl | rw [add_zero]

theorem step2_rules (a : ℚ) (st : ScoreState) : (step2 a st).rules = st.rules := by
  unfold step2
  split_ifs <;> rfl

theorem step3_tabular (t : String) (f : Features) (s : Snapshot) (n : ℚ)
    (st : ScoreState) : (step3 t f s n st).tabular = st.tabular := by
  unfold step3
  split <;> rfl

theorem step4_tabular (t : String) (s : Snapshot) (st : ScoreState) :
    (step4 t s st).tabular = st.tabular := by
  unfold step4
  split_ifs <;> rfl

theorem step4_rules (t : String) (s : Snapshot) (st : ScoreState) :
    (step4 t s st).rules = st.rules := by
  unfold step4
  split_ifs <;> rfl

theorem step5_tabular (t : String) (s : Snapshot) (st : ScoreState) :
    (step5 t s st).tabular = st.tabular := by
  unfold step5
  split_ifs <;> rfl

theorem step5_rules (t : String) (s : Snapshot) (st : ScoreState) :
    (step5 t s st).rules = st.rules := by
  unfold step5
  split_ifs <;> rfl

theorem step6_tabular (f t : String) (st : ScoreState) :
    (step6 f t st).tabular = st.tabular := by
  unfold step6
  split <;> rfl

theorem step7_tabular (ts : Option ℚ) (n : ℚ) (st : ScoreState) :
    (step7 ts n st).tabular = st.tabular := by
  unfold step7
  split <;> rfl

theorem step8_tabular (f : String) (s : Snapshot) (n : ℚ) (st : ScoreState) :
    (step8 f s n st).tabular = st.tabular := by
  unfold step8
  split <;> first | rfl | (split <;> rfl)

theorem step9_tabular (a : ℚ) (f : String) (s : Snapshot) (st : ScoreState) :
    (step9 a f s st).tabular = st.tabular := by
  unfold step9
  split
  · split <;> first | rfl | (split <;> rfl)
  · rfl

theorem step10_tabular (a : ℚ) (f : Features) (st : ScoreState) :
    (step10 a f st).tabular =
      if devCond a f then max st.tabular (_norm (rulePoints "large_deviation") maxPoints)
      else st.tabular := by
  unfold step10 devCond
  cases h : f.sender_avg_tx_usd with
  | none => simp
  | some v =>
      by_cases h1 : v ≠ 0
      · by_cases h2 : a / (v + 1e-9) ≥ 10
        · simp [h1, h2]
        · simp [h1, h2]
      · simp [h1]

theorem step10_rules (a : ℚ) (f : Features) (st : ScoreState) :
    (step10 a f st).rules = st.rules := by
  unfold step10
  split <;> first | rfl | (split_ifs <;> rfl)

theorem step9_of_ge_one {a : ℚ} (h : 1 ≤ a) (f : String) (s : Snapshot)
    (st : ScoreState) : step9 a f s st = st := by
  unfold step9
  rw [if_neg (not_lt.mpr h)]

theorem step3_rules_congr (t : String) (f : Features) (s : Snapshot) (n : ℚ)
    {st1 st2 : ScoreState} (h : st1.rules = st2.rules) :
    (step3 t f s n st1).rules = (step3 t f s n st2).rules := by
  unfold step3
  split <;> simp [h]

theorem step6_rules_congr (f t : String) {st1 st2 : ScoreState}
    (h : st1.rules = st2.rules) :
    (step6 f t st1).rules = (step6 f t st2).rules := by
  unfold step6
  split <;> simp [h]

theorem step7_rules_congr (ts : Option ℚ) (n : ℚ) {st1 st2 : ScoreState}
    (h : st1.rules = st2.rules) :
    (step7 ts n st1).rules = (step7 ts n st2).rules := by
  unfold step7
  split <;> simp [h]

theorem step8_rules_congr (f : String) (s : Snapshot) (n : ℚ)
    {st1 st2 : ScoreState} (h : st1.rules = st2.rules) :
    (step8 f s n st1).rules = (step8 f s n st2).rules := by
  unfold step8
  split <;> first | (split <;> simp [h]) | simp [h]

end Scorer

namespace Scorer

theorem maxPoints_pos : 0 < maxPoints := by norm_num [maxPoints]

theorem tierPoints_mono {a1 a2 : ℚ} (h : a1 ≤ a2) :
    tierPoints a1 ≤ tierPoints a2 := by
  have h25 : rulePoints "high_amount" = 25 := rfl
  unfold tierPoints
  rw [h25]
  split_ifs <;> linarith

theorem _norm_mono {v1 v2 m : ℚ} (hm : 0 < m) (h : v1 ≤ v2) :
    _norm v1 m ≤ _norm v2 m := by
  unfold _norm
  have hd : v1 / m ≤ v2 / m := by gcongr
  exact max_le_max le_rfl (min_le_min le_rfl hd)

theorem devCond_mono {a1 a2 : ℚ} (f : Features) (h0 : 1 ≤ a1) (h12 : a1 ≤ a2)
    (h : devCond a1 f = true) : devCond a2 f = true := by
  unfold devCond at h ⊢
  cases hs : f.sender_avg_tx_usd with
  | none => rw [hs] at h; simp at h
  | some v =>
      rw [hs] at h
      simp only [Bool.and_eq_true, decide_eq_true_eq] at h ⊢
      obtain ⟨hv, hr⟩ := h
      have hpos : 0 < v + 1e-9 := by
        rcases lt_trichotomy (v + 1e-9) 0 with hlt | he | hgt
        · exfalso
          have hq : a1 / (v + 1e-9) < 0 := div_neg_of_pos_of_neg (by linarith) hlt
          linarith
        · exfalso
          rw [he, div_zero] at hr
          linarith
        · exact hgt
      refine ⟨hv, le_trans hr ?_⟩
      gcongr

end Scorer

/-- Helper for the amended C9: for amounts at least 1 USD, the `rules`
component does not depend on the amount at all (the only amount-driven
rules are the sub-1-USD dusting rule and the tier rule, which feeds
`tabular`, not `rules`). -/
theorem score_rules_eq_of_ge_one (tx : Transaction) (features : Features)
    (snap : Snapshot) (now : ℚ) {a1 a2 : ℚ} (h0 : 1 ≤ a1) (h12 : a1 ≤ a2) :
    (Scorer.score_pre_transaction { tx with amount_usd := a1 } features snap now).component_scores.rules =
    (Scorer.score_pre_transaction { tx with amount_usd := a2 } features snap now).component_scores.rules := by
  simp only [Scorer.score_pre_transaction]
  rw [Scorer.finalize_rules, Scorer.finalize_rules]
  rw [Scorer.step10_rules, Scorer.step10_rules]
  rw [Scorer.step9_of_ge_one h0, Scorer.step9_of_ge_one (le_trans h0 h12)]
  refine congrArg pyRound3 ?_
  apply Scorer.step8_rules_congr
  apply Scorer.step7_rules_congr
  apply Scorer.step6_rules_congr
  rw [Scorer.step5_rules, Scorer.step5_rules, Scorer.step4_rules, Scorer.step4_rules]
  apply Scorer.step3_rules_congr
  rw [Scorer.step2_rules, Scorer.step2_rules]

/-- Helper for the amended C9: for amounts at least 1 USD, the `tabular`
component is monotone in the amount. -/
theorem score_tabular_mono (tx : Transaction) (features : Features)
    (snap : Snapshot) (now : ℚ) {a1 a2 : ℚ} (h0 : 1 ≤ a1) (h12 : a1 ≤ a2) :
    (Scorer.score_pre_transaction { tx with amount_usd := a1 } features snap now).component_scores.tabular ≤
    (Scorer.score_pre_transaction { tx with amount_usd := a2 } features snap now).component_scores.tabular := by
  simp only [Scorer.score_pre_transaction]
  rw [Scorer.finalize_tabular, Scorer.finalize_tabular]
  rw [Scorer.step10_tabular, Scorer.step10_tabular]
  rw [Scorer.step9_tabular, Scorer.step9_tabular, Scorer.step8_tabular, Scorer.step8_tabular,
      Scorer.step7_tabular, Scorer.step7_tabular, Scorer.step6_tabular, Scorer.step6_tabular,
      Scorer.step5_tabular, Scorer.step5_tabular, Scorer.step4_tabular, Scorer.step4_tabular,
      Scorer.step3_tabular, Scorer.step3_tabular, Scorer.step2_tabular, Scorer.step2_tabular]
  apply pyRound3_mono
  set st1 := Scorer.step1 (pyLower tx.from_addr) (pyLower tx.to_addr) Scorer.initState with hst1
  have hB : max st1.tabular (Scorer._norm (st1.points + Scorer.tierPoints a1) Scorer.maxPoints) ≤
      max st1.tabular (Scorer._norm (st1.points + Scorer.tierPoints a2) Scorer.maxPoints) :=
    max_le_max le_rfl (Scorer._norm_mono Scorer.maxPoints_pos
      (by linarith [Scorer.tierPoints_mono h12]))
  by_cases hd : Scorer.devCond a1 features = true
  · rw [if_pos hd, if_pos (Scorer.devCond_mono features h0 h12 hd)]
    exact max_le_max hB le_rfl
  · rw [if_neg hd]
    by_cases hd2 : Scorer.devCond a2 features = true
    · rw [if_pos hd2]
      exact le_trans hB (le_max_left _ _)
    · rw [if_neg hd2]
      exact hB

/-- C9 amended: holding every other field and every chain response
fixed, increasing `amount_usd` within the at-least-1-USD region (in
particular across the 1,000 / 10,000 / 100,000 tier boundaries) never
decreases the `rules` or `tabular` component.  The restriction to
amounts of at least 1 USD is forced by the counterexample: the sub-1-USD
dusting rule feeds the `rules` component and switches off as the amount
grows past 1 USD. -/
theorem C9_amended_monotonicity (tx : Transaction) (features : Features)
    (snap : Snapshot) (now a1 a2 : ℚ) (h0 : 1 ≤ a1) (h12 : a1 ≤ a2) :
    (Scorer.score_pre_transaction { tx with amount_usd := a1 } features snap now).component_scores.rules ≤
    (Scorer.score_pre_transaction { tx with amount_usd := a2 } features snap now).component_scores.rules ∧
    (Scorer.score_pre_transaction { tx with amount_usd := a1 } features snap now).component_scores.tabular ≤
    (Scorer.score_pre_transaction { tx with amount_usd := a2 } features snap now).component_scores.tabular :=
  ⟨le_of_eq (score_rules_eq_of_ge_one tx features snap now h0 h12),
   score_tabular_mono tx features snap now h0 h12⟩

/-- Witness for the amended C9 at a concrete input crossing the 1,000
and 10,000 USD boundaries. -/
theorem C9_amended_monotonicity_witness :
    (1:ℚ) ≤ 1000 ∧ (1000:ℚ) ≤ 10000 ∧
    ((Scorer.score_pre_transaction { tx8 with amount_usd := 1000 } feat8 snap8 0).component_scores.rules ≤
     (Scorer.score_pre_transaction { tx8 with amount_usd := 10000 } feat8 snap8 0).component_scores.rules ∧
     (Scorer.score_pre_transaction { tx8 with amount_usd := 1000 } feat8 snap8 0).component_scores.tabular ≤
     (Scorer.score_pre_transaction { tx8 with amount_usd := 10000 } feat8 snap8 0).component_scores.tabular) :=
  ⟨by norm_num, by norm_num,
   C9_amended_monotonicity tx8 feat8 snap8 0 1000 10000 (by norm_num) (by norm_num)⟩

/-! ## Concrete evaluations for claim C9 -/

/-- A sub-1-USD transfer from a sender with 11 recent transactions. -/
def tx9a : Transaction :=
  { chain := "ethereum", from_addr := "0xaaaa1", to_addr := "0xbbbb2",
    token_contract := "", amount_usd := 0.5, timestamp := some 43200 }

/-- The same transaction with the amount raised to 1,500 USD (crossing
the 1,000 USD tier boundary). -/
def tx9b : Transaction :=
  { chain := "ethereum", from_addr := "0xaaaa1", to_addr := "0xbbbb2",
    token_contract := "", amount_usd := 1500, timestamp := some 43200 }

/-- No precomputed features. -/
def feat9 : Features := ⟨none, none⟩

/-- A snapshot whose sender/limit-50 call returns 11 transactions (so
the dusting rule can fire) and whose other calls return non-lists. -/
def snap9 : Snapshot :=
  { toTxs1 := .otherDict, fromTxs20 := .otherDict,
    fromTxs50 := .txs (List.replicate 11 none),
    tokenMetaTruthy := false, tokenPrice := 0, contractVerified := false }

theorem score9a_state :
    Scorer.score_pre_transaction tx9a feat9 snap9 0 =
      Scorer.finalize ⟨10, ["possible_dusting"], 1/18, 0, 0, 0, 0⟩ := by
  have e1 : pyLower tx9a.from_addr = "0xaaaa1" := by decide
  have e2 : pyLower tx9a.to_addr = "0xbbbb2" := by decide
  have e3 : pyLower tx9a.token_contract = "" := by decide
  have e4 : tx9a.amount_usd = 0.5 := rfl
  have e5 : tx9a.timestamp = some 43200 := rfl
  simp only [Scorer.score_pre_transaction, e1, e2, e3, e4, e5]
  have s1 : Scorer.step1 "0xaaaa1" "0xbbbb2" Scorer.initState = Scorer.initState := by
    unfold Scorer.step1
    rw [if_neg (by decide)]
  rw [s1]
  have s2 : Scorer.step2 0.5 Scorer.initState = Scorer.initState := by
    simp only [Scorer.step2]
    rw [if_neg (by norm_num : ¬ ((0.5:ℚ) ≥ 100000)),
        if_neg (by norm_num : ¬ ((0.5:ℚ) ≥ 10000)),
        if_neg (by norm_num : ¬ ((0.5:ℚ) ≥ 1000))]
    norm_num [Scorer.initState, Scorer._norm, Scorer.maxPoints]
  rw [s2]
  have s3 : Scorer.step3 "0xbbbb2" feat9 snap9 0 Scorer.initState = Scorer.initState := by
    unfold Scorer.step3
    rw [if_neg (by decide)]
  rw [s3]
  have s4 : Scorer.step4 "" snap9 Scorer.initState = Scorer.initState := by
    unfold Scorer.step4
    rw [if_neg (by decide), if_neg (by decide)]
  rw [s4]
  have s5 : Scorer.step5 "" snap9 Scorer.initState = Scorer.initState := by
    unfold Scorer.step5
    rw [if_neg (by decide)]
  rw [s5]
  have s6 : Scorer.step6 "0xaaaa1" "0xbbbb2" Scorer.initState = Scorer.initState := by
    unfold Scorer.step6
    rw [if_neg (by decide)]
  rw [s6]
  have hh : Scorer.hourUsed (some 43200) 0 = 12 := by
    show (⌊(43200:ℚ) / 3600⌋ : ℤ) % 24 = 12
    rw [show (43200:ℚ)/3600 = ((12:ℤ):ℚ) by norm_num, Int.floor_intCast]
    decide
  have s7 : Scorer.step7 (some 43200) 0 Scorer.initState = Scorer.initState := by
    unfold Scorer.step7
    rw [hh]
    rw [if_neg (by decide)]
  rw [s7]
  have s8 : Scorer.step8 "0xaaaa1" snap9 0 Scorer.initState = Scorer.initState := by
    unfold Scorer.step8
    rw [show getFromTxs20 snap9 "0xaaaa1" = TxsResp.otherDict from rfl]
  rw [s8]
  have s9 : Scorer.step9 0.5 "0xaaaa1" snap9 Scorer.initState =
      (⟨10, ["possible_dusting"], 1/18, 0, 0, 0, 0⟩ : Scorer.ScoreState) := by
    simp only [Scorer.step9]
    rw [if_pos (by norm_num : (0.5:ℚ) < 1)]
    rw [show getFromTxs50 snap9 "0xaaaa1" = TxsResp.txs (List.replicate 11 none) from rfl]
    dsimp only
    rw [if_pos (by decide : (List.replicate 11 (none : Option ℚ)).length > 10)]
    norm_num [Scorer.initState, Scorer._norm, Scorer.maxPoints, Scorer.rulePoints]
  rw [s9]
  have s10 : Scorer.step10 0.5 feat9
      (⟨10, ["possible_dusting"], 1/18, 0, 0, 0, 0⟩ : Scorer.ScoreState) =
      (⟨10, ["possible_dusting"], 1/18, 0, 0, 0, 0⟩ : Scorer.ScoreState) := rfl
  rw [s10]

theorem score9b_state :
    Scorer.score_pre_transaction tx9b feat9 snap9 0 =
      Scorer.finalize ⟨5, [], 0, 1/36, 0, 0, 0⟩ := by
  have e1 : pyLower tx9b.from_addr = "0xaaaa1" := by decide
  have e2 : pyLower tx9b.to_addr = "0xbbbb2" := by decide
  have e3 : pyLower tx9b.token_contract = "" := by decide
  have e4 : tx9b.amount_usd = 1500 := rfl
  have e5 : tx9b.timestamp = some 43200 := rfl
  simp only [Scorer.score_pre_transaction, e1, e2, e3, e4, e5]
  have s1 : Scorer.step1 "0xaaaa1" "0xbbbb2" Scorer.initState = Scorer.initState := by
    unfold Scorer.step1
    rw [if_neg (by decide)]
  rw [s1]
  have s2 : Scorer.step2 1500 Scorer.initState =
      (⟨5, [], 0, 1/36, 0, 0, 0⟩ : Scorer.ScoreState) := by
    simp only [Scorer.step2]
    rw [if_neg (by norm_num : ¬ ((1500:ℚ) ≥ 100000)),
        if_neg (by norm_num : ¬ ((1500:ℚ) ≥ 10000)),
        if_pos (by norm_num : (1500:ℚ) ≥ 1000)]
    norm_num [Scorer.initState, Scorer._norm, Scorer.maxPoints, Scorer.rulePoints]
  rw [s2]
  have s3 : Scorer.step3 "0xbbbb2" feat9 snap9 0
      (⟨5, [], 0, 1/36, 0, 0, 0⟩ : Scorer.ScoreState) =
      (⟨5, [], 0, 1/36, 0, 0, 0⟩ : Scorer.ScoreState) := by
    unfold Scorer.step3
    rw [if_neg (by decide)]
  rw [s3]
  have s4 : Scorer.step4 "" snap9 (⟨5, [], 0, 1/36, 0, 0, 0⟩ : Scorer.ScoreState) =
      (⟨5, [], 0, 1/36, 0, 0, 0⟩ : Scorer.ScoreState) := by
    unfold Scorer.step4
    rw [if_neg (by decide), if_neg (by decide)]
  rw [s4]
  have s5 : Scorer.step5 "" snap9 (⟨5, [], 0, 1/36, 0, 0, 0⟩ : Scorer.ScoreState) =
      (⟨5, [], 0, 1/36, 0, 0, 0⟩ : Scorer.ScoreState) := by
    unfold Scorer.step5
    rw [if_neg (by decide)]
  rw [s5]
  have s6 : Scorer.step6 "0xaaaa1" "0xbbbb2"
      (⟨5, [], 0, 1/36, 0, 0, 0⟩ : Scorer.ScoreState) =
      (⟨5, [], 0, 1/36, 0, 0, 0⟩ : Scorer.ScoreState) := by
    unfold Scorer.step6
    rw [if_neg (by decide)]
  rw [s6]
  have hh : Scorer.hourUsed (some 43200) 0 = 12 := by
    show (⌊(43200:ℚ) / 3600⌋ : ℤ) % 24 = 12
    rw [show (43200:ℚ)/3600 = ((12:ℤ):ℚ) by norm_num, Int.floor_intCast]
    decide
  have s7 : Scorer.step7 (some 43200) 0 (⟨5, [], 0, 1/36, 0, 0, 0⟩ : Scorer.ScoreState) =
      (⟨5, [], 0, 1/36, 0, 0, 0⟩ : Scorer.ScoreState) := by
    unfold Scorer.step7
    rw [hh]
    rw [if_neg (by decide)]
  rw [s7]
  have s8 : Scorer.step8 "0xaaaa1" snap9 0 (⟨5, [], 0, 1/36, 0, 0, 0⟩ : Scorer.ScoreState) =
      (⟨5, [], 0, 1/36, 0, 0, 0⟩ : Scorer.ScoreState) := by
    unfold Scorer.step8
    rw [show getFromTxs20 snap9 "0xaaaa1" = TxsResp.otherDict from rfl]
  rw [s8]
  have s9 : Scorer.step9 1500 "0xaaaa1" snap9 (⟨5, [], 0, 1/36, 0, 0, 0⟩ : Scorer.ScoreState) =
      (⟨5, [], 0, 1/36, 0, 0, 0⟩ : Scorer.ScoreState) := by
    unfold Scorer.step9
    rw [if_neg (by norm_num : ¬ ((1500:ℚ) < 1))]
  rw [s9]
  have s10 : Scorer.step10 1500 feat9 (⟨5, [], 0, 1/36, 0, 0, 0⟩ : Scorer.ScoreState) =
      (⟨5, [], 0, 1/36, 0, 0, 0⟩ : Scorer.ScoreState) := rfl
  rw [s10]

/-- Evaluation helper for `pyRound3` away from ties, rounding up. -/
theorem pyRound3_eq_up (n : ℤ) {q : ℚ} (h1 : (n : ℚ) + 1/2 < q * 1000)
    (h2 : q * 1000 < (n : ℚ) + 1) : pyRound3 q = ((n : ℚ) + 1) / 1000 := by
  unfold pyRound3
  rw [pyRoundInt_eq_up n h1 h2]
  push_cast
  ring

theorem score9a_rules :
    (Scorer.score_pre_transaction tx9a feat9 snap9 0).component_scores.rules = 7/125 := by
  rw [score9a_state, Scorer.finalize_rules]
  show pyRound3 (1/18) = 7/125
  rw [pyRound3_eq_up 55 (by norm_num) (by norm_num)]
  norm_num

theorem score9b_rules :
    (Scorer.score_pre_transaction tx9b feat9 snap9 0).component_scores.rules = 0 := by
  rw [score9b_state, Scorer.finalize_rules]
  exact pyRound3_zero

/-- C9 counterexample: increasing the amount from 0.50 USD to 1,500 USD
(crossing the 1,000 USD tier boundary), with every other field and every
chain response fixed, DECREASES the `rules` component from 0.056 to 0,
because the sub-1-USD dusting rule stops firing.  So monotonicity as
claimed fails without excluding the sub-1-USD region. -/
theorem C9_counterexample :
    tx9a.amount_usd ≤ tx9b.amount_usd ∧
    tx9a.amount_usd < 1000 ∧ (1000:ℚ) ≤ tx9b.amount_usd ∧
    ¬ ((Scorer.score_pre_transaction tx9a feat9 snap9 0).component_scores.rules ≤
       (Scorer.score_pre_transaction tx9b feat9 snap9 0).component_scores.rules) := by
  refine ⟨?_, ?_, ?_, ?_⟩
  · show (0.5:ℚ) ≤ 1500
    norm_num
  · show (0.5:ℚ) < 1000
    norm_num
  · show (1000:ℚ) ≤ 1500
    norm_num
  · rw [score9a_rules, score9b_rules]
    norm_num
